import Mathlib

/-!
Verification of the query-understanding and retrieval-routing pipeline of the
nextjs-chat-app repository: a shallow embedding, in Lean 4, of the entity
extractor, query classifier, hybrid-search scoring and model router found in
`src/lib/embeddings.ts`, the query classifier module, and the MCP model-router
(`model-router.ts`, `model-capabilities.ts`, `model-analyzer.ts`), together
with theorems settling the stated behavioural claims.

Conventions of the embedding:
* JavaScript numbers are modelled by `ℚ` (all arithmetic in these modules is
  exact decimal arithmetic well inside double precision); `Math.round` is
  modelled by `jsRound` (`⌊x + 1/2⌋`, which agrees with JS on the
  non-negative scores arising here).
* Strings are ASCII in all concrete inputs; `toLowerCase` is `Char.toLower`
  mapped over the string.
* A JavaScript regular-expression `test` is modelled by a Brzozowski
  derivative matcher (`Rx`): `test` checks for a match anywhere, respecting
  `^`/`$` anchors and edge `\b` word-boundary assertions where the source
  pattern has them.  Case-insensitive (`/i`) tests of all-lowercase patterns
  are modelled by matching against the lowercased subject.
* Extraction patterns (which need leftmost-match and capture semantics) are
  embedded as dedicated scanners that reproduce the leftmost, greedy,
  ordered-alternation behaviour of the concrete source regexes.
-/

namespace ChatApp

/-! ## JavaScript string primitives -/

/-- `s.toLowerCase()` (ASCII scope). -/
def jsToLower (s : String) : String := String.mk (s.data.map Char.toLower)

/-- Boolean list-prefix test over characters. -/
def hasPrefixCh : List Char → List Char → Bool
  | [], _ => true
  | _ :: _, [] => false
  | c :: p, d :: s => c == d && hasPrefixCh p s

/-- Does `needle` occur as a contiguous sublist of `hay`? -/
def containsCh (needle : List Char) : List Char → Bool
  | [] => hasPrefixCh needle []
  | c :: s => hasPrefixCh needle (c :: s) || containsCh needle s

/-- `hay.includes(needle)` of JavaScript. -/
def strIncludes (hay needle : String) : Bool := containsCh needle.data hay.data

/-- `Math.round` on the non-negative rationals produced by the router:
`⌊x + 1/2⌋`. -/
def jsRound (x : ℚ) : ℤ := ⌊x + 1/2⌋

/-- JS word character (`\w` = `[A-Za-z0-9_]`). -/
def isWordCh (c : Char) : Bool :=
  (('a' ≤ c && c ≤ 'z') || ('A' ≤ c && c ≤ 'Z') || ('0' ≤ c && c ≤ '9') || c == '_')

/-- JS digit character (`\d`). -/
def isDigitCh (c : Char) : Bool := '0' ≤ c && c ≤ '9'

/-- JS whitespace (`\s`), ASCII scope. -/
def isSpaceCh (c : Char) : Bool :=
  (c == ' ' || c == '\t' || c == '\n' || c == '\r' || c == '\x0b' || c == '\x0c')

/-- Helper of `jsSplitAt` (`acc` holds the current segment reversed). -/
def splitChGo (sep : Char) : List Char → List Char → List String
  | [], acc => [String.mk acc.reverse]
  | c :: rest, acc =>
    if c == sep then String.mk acc.reverse :: splitChGo sep rest []
    else splitChGo sep rest (c :: acc)

/-- `s.split(sep)` of JavaScript for a one-character separator. -/
def jsSplitAt (s : String) (sep : Char) : List String := splitChGo sep s.data []

/-- A stable insertion into a list ordered by `rel` (`rel a b`: `a` may
precede `b`); the incoming element goes before the first element it may
precede. -/
def insertBy {α : Type} (rel : α → α → Bool) (x : α) : List α → List α
  | [] => [x]
  | y :: ys => if rel x y then x :: y :: ys else y :: insertBy rel x ys

/-- Stable sort by `rel` (a non-strict "may precede" relation): the unique
output of any stable comparator sort, e.g. ES2019+ `Array.prototype.sort`. -/
def sortBy {α : Type} (rel : α → α → Bool) : List α → List α
  | [] => []
  | x :: xs => insertBy rel x (sortBy rel xs)

/-- `s.trim()` (ASCII whitespace scope). -/
def jsTrim (s : String) : String :=
  String.mk (((s.data.dropWhile isSpaceCh).reverse.dropWhile isSpaceCh).reverse)

/-! ## A Brzozowski-derivative matcher for the source's regex `test` calls

Only Boolean `test` semantics are needed here (does a match exist?), which is
insensitive to greediness/alternation order, so a derivative matcher is an
exact model.  `^`/`$` anchors are expressed by choosing the entry point
(`testStart`, `testEnd`, `test`); the source patterns that use `\b` use it
only at the two edges of the pattern, modelled by `testWB`. -/

inductive Rx where
  | fail : Rx
  | eps : Rx
  | pred (p : Char → Bool) : Rx
  | cat (a b : Rx) : Rx
  | alt (a b : Rx) : Rx
  | star (a : Rx) : Rx

/-- Does the regex accept the empty string? -/
def Rx.nullable : Rx → Bool
  | .fail => false
  | .eps => true
  | .pred _ => false
  | .cat a b => a.nullable && b.nullable
  | .alt a b => a.nullable || b.nullable
  | .star _ => true

/-- Smart concatenation (keeps derivatives small). -/
def Rx.catS : Rx → Rx → Rx
  | .fail, _ => .fail
  | _, .fail => .fail
  | .eps, x => x
  | x, .eps => x
  | x, y => .cat x y

/-- Smart alternation (keeps derivatives small). -/
def Rx.altS : Rx → Rx → Rx
  | .fail, x => x
  | x, .fail => x
  | x, y => .alt x y

/-- Brzozowski derivative with respect to one character. -/
def Rx.deriv : Rx → Char → Rx
  | .fail, _ => .fail
  | .eps, _ => .fail
  | .pred p, c => if p c then .eps else .fail
  | .cat a b, c =>
    if a.nullable then .altS (.catS (a.deriv c) b) (b.deriv c) else .catS (a.deriv c) b
  | .alt a b, c => .altS (a.deriv c) (b.deriv c)
  | .star a, c => .catS (a.deriv c) (.star a)

/-- Whole-list match. -/
def Rx.matchesL (r : Rx) : List Char → Bool
  | [] => r.nullable
  | c :: s => (r.deriv c).matchesL s

/-- `.` of JS regexes: any character but a newline. -/
def dotR : Rx := .pred (fun c => c != '\n')

/-- Zero or more arbitrary characters. -/
def anyStar : Rx := .star (.pred (fun _ => true))

/-- Unanchored `test`: a match exists somewhere in the subject. -/
def Rx.test (r : Rx) (s : List Char) : Bool := (Rx.cat anyStar (Rx.cat r anyStar)).matchesL s

/-- `test` of a `^`-anchored pattern. -/
def Rx.testStart (r : Rx) (s : List Char) : Bool := (Rx.cat r anyStar).matchesL s

/-- `test` of a `$`-anchored pattern. -/
def Rx.testEnd (r : Rx) (s : List Char) : Bool := (Rx.cat anyStar r).matchesL s

/-- `test` of a `^...$` pattern. -/
def Rx.testBoth (r : Rx) (s : List Char) : Bool := r.matchesL s

/-- Is the character at index `i` (if any) a word character? -/
def wordAt (s : List Char) (i : ℕ) : Bool :=
  match s[i]? with
  | some c => isWordCh c
  | none => false

/-- Is there a `\b` word boundary just before index `i`? -/
def boundaryAt (s : List Char) (i : ℕ) : Bool :=
  (if i = 0 then false else wordAt s (i - 1)) != wordAt s i

/-- `test` of a `\b...\b` pattern (boundary assertions at both pattern
edges): some slice of the subject is matched by `r` with word boundaries at
both slice edges. -/
def Rx.testWB (r : Rx) (s : List Char) : Bool :=
  (List.range (s.length + 1)).any fun i =>
    boundaryAt s i &&
    (List.range (s.length + 1 - i)).any fun k =>
      boundaryAt s (i + k) && r.matchesL ((s.drop i).take k)

/-- Literal word. -/
def litR (w : String) : Rx :=
  w.data.foldr (fun c r => Rx.catS (.pred (fun d => d == c)) r) .eps

/-- Ordered alternation of a list of regexes. -/
def altList (l : List Rx) : Rx := l.foldr Rx.altS .fail

/-- `\s+` -/
def ws1R : Rx := .cat (.pred isSpaceCh) (.star (.pred isSpaceCh))

/-- `\s*` -/
def ws0R : Rx := .star (.pred isSpaceCh)

/-- `\d+` -/
def digits1R : Rx := .cat (.pred isDigitCh) (.star (.pred isDigitCh))

/-- `\w+` -/
def word1R : Rx := .cat (.pred isWordCh) (.star (.pred isWordCh))

/-- `r?` -/
def optR (r : Rx) : Rx := .alt r .eps

/-- `c{n}` for a character class. -/
def repPred (p : Char → Bool) : ℕ → Rx
  | 0 => .eps
  | n + 1 => .cat (.pred p) (repPred p n)

/-- Concatenation of a list of regexes. -/
def catList (l : List Rx) : Rx := l.foldr Rx.catS .eps

/-! ## `scrambleEmail` (src/lib/embeddings.ts) -/

/-- Embeds `scrambleEmail`: empty/falsy input yields `""`; destructuring
`email.split('@')` takes the first two components; a falsy (empty or absent)
local part or domain returns the input unchanged; otherwise the local part is
masked.  (The `typeof email !== 'string'` branch is unrepresentable in the
typed embedding.) -/
def scrambleEmail (email : String) : String :=
  if email = "" then ""
  else
    match jsSplitAt email '@' with
    | [] => email
    | [_] => email
    | localPart :: domain :: _ =>
      if localPart = "" ∨ domain = "" then email
      else
        let charsToShow := min 4 localPart.data.length
        let visiblePart := String.mk (localPart.data.take charsToShow)
        let maskLength := max 3 (localPart.data.length - charsToShow)
        let maskedPart := String.mk (List.replicate maskLength '#')
        visiblePart ++ maskedPart ++ "@" ++ domain

/-! ## `extractBrand` (src/lib/embeddings.ts) -/

/-- The fixed known-brand list of `extractBrand`. -/
def knownBrands : List String :=
  ["sephora collection", "yves saint laurent", "nars", "fenty",
   "rare beauty", "dior", "lancome", "mac"]

/-- Does brand `b` occur (case-insensitively) in `query`? -/
def brandOccurs (query b : String) : Bool :=
  strIncludes (jsToLower query) (jsToLower b)

/-- Embeds `extractBrand`: the first listed brand contained in the lowercased
query, else `null`. -/
def extractBrand (query : String) : Option String :=
  knownBrands.find? (fun b => brandOccurs query b)

/-! ## Leftmost-match scanners

JS `String.match` (and global `match`) semantics for the source's extraction
regexes: leftmost match wins, quantifiers are greedy, alternations are tried
in order.  Each source pattern is embedded as a scanner whose backtracking
behaviour is derived from the concrete pattern (noted in each doc string). -/

/-- Try `m` at every position, left to right; first hit wins. -/
def scanFirst {α : Type} (m : List Char → Option α) : List Char → Option α
  | [] => m []
  | c :: s =>
    match m (c :: s) with
    | some a => some a
    | none => scanFirst m s

/-- Fuel-driven core of `scanAll`; one fuel unit per consumed character, so
`s.length + 1` units always suffice. -/
def scanAllF (m : List Char → Option (List Char × List Char)) :
    ℕ → List Char → List (List Char)
  | 0, _ => []
  | _, [] => []
  | fuel + 1, c :: s =>
    match m (c :: s) with
    | some (a, rest) =>
      if rest.length < s.length + 1 then a :: scanAllF m fuel rest
      else [a]
    | none => scanAllF m fuel s

/-- All non-overlapping leftmost matches (`/g` flag); `m` yields the matched
characters and the remaining input.  The source patterns never match the
empty string, so each hit consumes input. -/
def scanAll (m : List Char → Option (List Char × List Char)) (s : List Char) :
    List (List Char) :=
  scanAllF m (s.length + 1) s

/-- Case-sensitive literal at the head of the input; yields the rest. -/
def litM (w : String) (s : List Char) : Option (List Char) :=
  if hasPrefixCh w.data s then some (s.drop w.data.length) else none

/-- Case-insensitive literal at the head; yields the original matched
characters and the rest. -/
def hasPrefixCI : List Char → List Char → Bool
  | [], _ => true
  | _ :: _, [] => false
  | c :: p, d :: s => (Char.toLower d == Char.toLower c) && hasPrefixCI p s

def litCI (w : String) (s : List Char) : Option (List Char × List Char) :=
  if hasPrefixCI w.data s then some (s.take w.data.length, s.drop w.data.length) else none

/-- Maximal run of characters satisfying `p`, and the rest. -/
def runOf (p : Char → Bool) (s : List Char) : List Char × List Char :=
  (s.takeWhile p, s.dropWhile p)

/-- `\s+` at the head (greedy). -/
def ws1M (s : List Char) : Option (List Char) :=
  match s with
  | c :: _ => if isSpaceCh c then some (s.dropWhile isSpaceCh) else none
  | [] => none

/-- Digits of a captured `\d+` as a number (`parseInt`). -/
def natOfDigits (ds : List Char) : ℕ :=
  ds.foldl (fun n c => n * 10 + (c.toNat - '0'.toNat)) 0

/-! ## `extractTopKFromQuery` (src/lib/embeddings.ts) -/

/-- `/top\s+(\d+)/` anchored at the head; the captured number. -/
def patTopN (s : List Char) : Option ℕ := do
  let r ← litM "top" s
  let r ← ws1M r
  let (ds, _) := runOf isDigitCh r
  if ds.isEmpty then none else some (natOfDigits ds)

/-- `/(\d+)\s+most/` anchored at the head. -/
def patNMost (s : List Char) : Option ℕ := do
  let (ds, r) := runOf isDigitCh s
  if ds.isEmpty then none else
  let r ← ws1M r
  let _ ← litM "most" r
  some (natOfDigits ds)

/-- `/(\d+)\s+top/` anchored at the head. -/
def patNTop (s : List Char) : Option ℕ := do
  let (ds, r) := runOf isDigitCh s
  if ds.isEmpty then none else
  let r ← ws1M r
  let _ ← litM "top" r
  some (natOfDigits ds)

/-- `/first\s+(\d+)/` anchored at the head. -/
def patFirstN (s : List Char) : Option ℕ := do
  let r ← litM "first" s
  let r ← ws1M r
  let (ds, _) := runOf isDigitCh r
  if ds.isEmpty then none else some (natOfDigits ds)

/-- `/show\s+me\s+(\d+)/` anchored at the head. -/
def patShowMeN (s : List Char) : Option ℕ := do
  let r ← litM "show" s
  let r ← ws1M r
  let r ← litM "me" r
  let r ← ws1M r
  let (ds, _) := runOf isDigitCh r
  if ds.isEmpty then none else some (natOfDigits ds)

/-- `/get\s+me\s+(\d+)/` anchored at the head. -/
def patGetMeN (s : List Char) : Option ℕ := do
  let r ← litM "get" s
  let r ← ws1M r
  let r ← litM "me" r
  let r ← ws1M r
  let (ds, _) := runOf isDigitCh r
  if ds.isEmpty then none else some (natOfDigits ds)

/-- `/find\s+(\d+)/` anchored at the head. -/
def patFindN (s : List Char) : Option ℕ := do
  let r ← litM "find" s
  let r ← ws1M r
  let (ds, _) := runOf isDigitCh r
  if ds.isEmpty then none else some (natOfDigits ds)

/-- `/(\d+)\s+(?:results?|records?|items?)/` anchored at the head (the
optional trailing `s` cannot affect whether a match exists). -/
def patNResultsEtc (s : List Char) : Option ℕ := do
  let (ds, r) := runOf isDigitCh s
  if ds.isEmpty then none else
  let r ← ws1M r
  if hasPrefixCh "result".data r || hasPrefixCh "record".data r || hasPrefixCh "item".data r
  then some (natOfDigits ds) else none

/-- The eight topK patterns in source order. -/
def topKPatternList : List (List Char → Option ℕ) :=
  [patTopN, patNMost, patNTop, patFirstN, patShowMeN, patGetMeN, patFindN, patNResultsEtc]

/-- The source loop: first pattern whose (leftmost) capture parses to a
positive integer. -/
def topKLoop (ql : List Char) : List (List Char → Option ℕ) → Option ℕ
  | [] => none
  | p :: rest =>
    match scanFirst p ql with
    | some k => if 0 < k then some k else topKLoop ql rest
    | none => topKLoop ql rest

/-- Embeds `extractTopKFromQuery`. -/
def extractTopKFromQuery (query : String) : Option ℕ :=
  let ql := (jsToLower query).data
  match topKLoop ql topKPatternList with
  | some k => some k
  | none => if containsCh "top".data ql && !(ql.any isDigitCh) then some 5 else none

/-! ## Structured extraction (QueryPreprocessor, vector-search module) -/

/-- `/(\d{4}-\d{2}-\d{2})/` anchored at the head. -/
def isoDateAt (s : List Char) : Option (List Char × List Char) :=
  match s with
  | a :: b :: c :: d :: '-' :: e :: f :: '-' :: g :: h :: rest =>
    if isDigitCh a && isDigitCh b && isDigitCh c && isDigitCh d &&
       isDigitCh e && isDigitCh f && isDigitCh g && isDigitCh h
    then some ([a, b, c, d, '-', e, f, '-', g, h], rest) else none
  | _ => none

/-- `/(today|yesterday)/i` anchored at the head. -/
def relDate1At (s : List Char) : Option (List Char × List Char) :=
  (litCI "today" s).orElse fun _ => litCI "yesterday" s

/-- `/(last week|this month|last month)/i` anchored at the head. -/
def relDate2At (s : List Char) : Option (List Char × List Char) :=
  ((litCI "last week" s).orElse fun _ => litCI "this month" s).orElse fun _ =>
    litCI "last month" s

/-- Embeds `extractDates`: the three global patterns, results concatenated in
pattern order. -/
def extractDates (query : String) : List String :=
  let s := query.data
  ((scanAll isoDateAt s ++ scanAll relDate1At s ++ scanAll relDate2At s).map
    fun l => String.mk l)

/-- `[\w.-]` -/
def emailClassCh (c : Char) : Bool := isWordCh c || c == '.' || c == '-'

/-- `/[\w.-]+@[\w.-]+\.[\w]+/` anchored at the head.  Greedy backtracking of
the domain run reduces to splitting it at the rightmost dot that is followed
immediately by a word character. -/
def emailAt (s : List Char) : Option (List Char × List Char) :=
  let (localRun, rest1) := runOf emailClassCh s
  if localRun.isEmpty then none
  else
    match rest1 with
    | '@' :: rest2 =>
      let (drun, rest3) := runOf emailClassCh rest2
      match (List.range drun.length).reverse.find? (fun k =>
        drun[k]? == some '.' &&
        (match drun[k + 1]? with | some c => isWordCh c | none => false)) with
      | some k =>
        let wordRun := (drun.drop (k + 1)).takeWhile isWordCh
        let consumed := localRun ++ '@' :: (drun.take (k + 1)) ++ wordRun
        let leftover := (drun.drop (k + 1)).dropWhile isWordCh
        some (consumed, leftover ++ rest3)
      | none => none
    | _ => none

/-- Embeds `extractEmails` (`query.match(/[\w.-]+@[\w.-]+\.[\w]+/g) || []`). -/
def extractEmails (query : String) : List String :=
  (scanAll emailAt query.data).map fun l => String.mk l

/-- `/\$\d+(?:\.\d{2})?|\d+\s*(?:dollars|usd)/gi` anchored at the head. -/
def priceAt (s : List Char) : Option (List Char × List Char) :=
  (match s with
   | '$' :: rest =>
     let (ds, r2) := runOf isDigitCh rest
     if ds.isEmpty then none
     else
       match r2 with
       | '.' :: a :: b :: r3 =>
         if isDigitCh a && isDigitCh b then some ('$' :: ds ++ ['.', a, b], r3)
         else some ('$' :: ds, r2)
       | _ => some ('$' :: ds, r2)
   | _ => none).orElse fun _ =>
    let (ds, r2) := runOf isDigitCh s
    if ds.isEmpty then none
    else
      let (sp, r3) := runOf isSpaceCh r2
      match litCI "dollars" r3 with
      | some (w, r4) => some (ds ++ sp ++ w, r4)
      | none =>
        match litCI "usd" r3 with
        | some (w, r4) => some (ds ++ sp ++ w, r4)
        | none => none

/-- Embeds `extractPrices`. -/
def extractPrices (query : String) : List String :=
  (scanAll priceAt query.data).map fun l => String.mk l

/-- `["']` -/
def isQuoteCh (c : Char) : Bool := c == '"' || c == '\''

/-- `["']([^"']+)["']` anchored at the head; yields the capture. -/
def quotedCap (s : List Char) : Option (List Char) :=
  match s with
  | q :: r =>
    if isQuoteCh q then
      let (content, r2) := runOf (fun c => !isQuoteCh c) r
      if content.isEmpty then none
      else
        match r2 with
        | c2 :: _ => if isQuoteCh c2 then some content else none
        | [] => none
    else none
  | [] => none

/-- `(\w+)` anchored at the head; yields the capture. -/
def wordCap (s : List Char) : Option (List Char) :=
  let (w, _) := runOf isWordCh s
  if w.isEmpty then none else some w

/-- Continuation candidates of `(?:ed|ing)?`, in backtracking order. -/
def edIngCands (s : List Char) : List (List Char) :=
  ((litCI "ed" s).elim [] fun p => [p.2]) ++
    ((litCI "ing" s).elim [] fun p => [p.2]) ++ [s]

/-- Continuation candidates of `(?:for\s+)?`, in backtracking order. -/
def forWsCands (s : List Char) : List (List Char) :=
  (match litCI "for" s with
   | some (_, r) => (ws1M r).elim [] fun r2 => [r2]
   | none => []) ++ [s]

/-- `/search(?:ed|ing)?\s+(?:for\s+)?["']([^"']+)["']/i` at the head. -/
def searchTermP1 (s : List Char) : Option (List Char) := do
  let (_, r1) ← litCI "search" s
  (edIngCands r1).findSome? fun r2 =>
    (ws1M r2).bind fun r3 => (forWsCands r3).findSome? fun r4 => quotedCap r4

/-- `/search(?:ed|ing)?\s+(?:for\s+)?(\w+)/i` at the head. -/
def searchTermP2 (s : List Char) : Option (List Char) := do
  let (_, r1) ← litCI "search" s
  (edIngCands r1).findSome? fun r2 =>
    (ws1M r2).bind fun r3 => (forWsCands r3).findSome? fun r4 => wordCap r4

/-- `/query\s+["']([^"']+)["']/i` at the head. -/
def searchTermP3 (s : List Char) : Option (List Char) := do
  let (_, r1) ← litCI "query" s
  let r2 ← ws1M r1
  quotedCap r2

/-- `/look(?:ing)?\s+for\s+["']([^"']+)["']/i` at the head. -/
def searchTermP4 (s : List Char) : Option (List Char) := do
  let (_, r1) ← litCI "look" s
  (((litCI "ing" r1).elim [] fun p => [p.2]) ++ [r1]).findSome? fun r2 =>
    (ws1M r2).bind fun r3 =>
      (litCI "for" r3).bind fun p =>
        (ws1M p.2).bind fun r4 => quotedCap r4

/-- Embeds `extractSearchTerms`: for each pattern in order, the first match's
capture (if any). -/
def extractSearchTerms (query : String) : List String :=
  let s := query.data
  ([searchTermP1, searchTermP2, searchTermP3, searchTermP4].filterMap
    fun p => (scanFirst p s).map fun l => String.mk l)

/-- `eventTypePatterns.purchase`:
`/\b(buy|purchas|bought|order|ordered|product|price|expensive|cheap)\b/i`. -/
def purchaseRx : Rx :=
  altList [litR "buy", litR "purchas", litR "bought", litR "order", litR "ordered",
           litR "product", litR "price", litR "expensive", litR "cheap"]

/-- `eventTypePatterns.search`:
`/\b(search|searched|query|look for|finding|seeking|looked for)\b/i`. -/
def searchRx : Rx :=
  altList [litR "search", litR "searched", litR "query", litR "look for",
           litR "finding", litR "seeking", litR "looked for"]

/-- `eventTypePatterns.pageview`: `/\b(view|page|visit|browse|look at|seen)\b/i`. -/
def pageviewRx : Rx :=
  altList [litR "view", litR "page", litR "visit", litR "browse", litR "look at", litR "seen"]

/-- Embeds `detectEventTypeFromQuery` (patterns tested against the lowercased
query, keys in object insertion order). -/
def detectEventTypeFromQuery (query : String) : List String :=
  let s := (jsToLower query).data
  (if purchaseRx.testWB s then ["purchase"] else []) ++
    (if searchRx.testWB s then ["search"] else []) ++
    (if pageviewRx.testWB s then ["pageview"] else [])

structure QueryEntities where
  dates : List String
  emails : List String
  prices : List String
  brands : List String
  eventTypes : List String
  searchTerms : List String
deriving DecidableEq, Repr

/-- Embeds `QueryPreprocessor.extractEntities` (the `brands` field is
`extractBrand(query) ? [extractBrand(query)!] : []`; every known brand is a
non-empty — hence truthy — string). -/
def extractEntities (query : String) : QueryEntities where
  dates := extractDates query
  emails := extractEmails query
  prices := extractPrices query
  brands := (extractBrand query).elim [] fun b => [b]
  eventTypes := detectEventTypeFromQuery query
  searchTerms := extractSearchTerms query

/-! ## Query classifier (query-classifier module) -/

inductive QueryType where
  | rag : QueryType
  | general : QueryType
deriving DecidableEq, Repr

structure QueryClassification where
  type : QueryType
  confidence : ℚ
  reason : String
deriving DecidableEq, Repr

/-- `RAG_KEYWORDS` verbatim. -/
def RAG_KEYWORDS : List String :=
  ["show", "display", "list", "find", "search", "get", "fetch",
   "purchases", "orders", "transactions", "sales",
   "page views", "pageviews", "views", "visits",
   "searches", "search terms", "queries",
   "products", "items", "catalog",
   "users", "customers", "clients",
   "data", "records", "entries",
   "top", "best", "worst", "most", "least", "highest", "lowest",
   "average", "total", "count", "sum", "statistics", "stats",
   "last week", "last month", "yesterday", "today", "recent",
   "between", "from date", "to date",
   "bought", "purchased", "ordered", "viewed", "searched for",
   "price", "cost", "amount", "spent",
   "category", "brand", "department",
   "uploaded", "csv", "file", "imported"]

/-- `GENERAL_KEYWORDS` verbatim. -/
def GENERAL_KEYWORDS : List String :=
  ["what is", "what are", "who is", "who are", "when was", "when did",
   "how does", "how do", "how to", "how can",
   "why is", "why do", "why are",
   "explain", "describe", "tell me about", "define",
   "help me", "can you", "could you", "would you",
   "write", "create", "generate", "compose",
   "summarize", "translate", "convert",
   "think", "opinion", "believe", "feel",
   "recommend", "suggest", "advice",
   "hello", "hi", "hey", "thanks", "thank you",
   "who are you", "what can you do"]

/-- The twelve `RAG_PATTERNS`, in source order; all are unanchored. -/
def ragPatterns : List Rx :=
  [catList [litR "show", ws1R, optR (catList [litR "me", ws1R]), optR (catList [litR "all", ws1R])],
   catList [litR "list", ws1R, optR (catList [litR "all", ws1R])],
   catList [litR "find", ws1R, optR (catList [litR "all", ws1R])],
   catList [litR "get", ws1R, optR (catList [litR "me", ws1R])],
   catList [litR "top", ws1R, digits1R],
   catList [litR "last", ws1R, altList [litR "week", litR "month", litR "day", litR "year"]],
   catList [litR "from", ws1R, repPred isDigitCh 4],
   catList [litR "purchase", optR (litR "s"), ws1R, altList [litR "from", litR "by", litR "of"]],
   catList [litR "search", optR (litR "es"), ws1R, altList [litR "for", litR "by", litR "from"]],
   catList [litR "page", ws0R, litR "view", optR (litR "s"), ws1R,
            altList [litR "for", litR "of", litR "on", litR "from"]],
   catList [litR "how", ws1R, litR "many", ws1R,
            altList [catList [litR "purchase", optR (litR "s")], catList [litR "order", optR (litR "s")],
                     catList [litR "view", optR (litR "s")], catList [litR "search", optR (litR "es")]]],
   catList [litR "what", ws1R, litR "did", ws1R,
            altList [catList [litR "user", optR (litR "s")], catList [litR "customer", optR (litR "s")],
                     litR "people"],
            ws1R, altList [litR "buy", litR "search", litR "view", litR "purchase"]]]

/-- Did some strong RAG pattern match the (lowercased, trimmed) query? -/
def ragPatternHit (s : List Char) : Bool := ragPatterns.any fun r => r.test s

/-- The seven `GENERAL_PATTERNS` in source order; the first is `^`-anchored
and the second is `$`-anchored, so they are tested separately. -/
def generalPatternsPlain : List Rx :=
  [catList [litR "how", ws1R, altList [litR "does", litR "do"], ws1R, word1R, ws1R, litR "work"],
   catList [litR "explain", ws1R, optR (catList [litR "to", ws1R, litR "me", ws1R])],
   catList [litR "tell", ws1R, litR "me", ws1R, altList [litR "about", litR "more"]],
   catList [litR "can", ws1R, litR "you", ws1R,
            altList [litR "help", litR "explain", litR "tell", litR "write"]],
   catList [litR "who", ws1R, altList [litR "is", litR "are", litR "was", litR "were"]]]

/-- Did some strong general-conversation pattern match? -/
def generalPatternHit (s : List Char) : Bool :=
  Rx.testStart (altList [litR "hi", litR "hello", litR "hey", litR "thanks", litR "thank you"]) s ||
  Rx.testEnd (catList [litR "what", ws1R, litR "is", ws1R,
                       optR (altList [litR "a", litR "an", litR "the"]),
                       ws0R, word1R, ws0R, litR "?"]) s ||
  generalPatternsPlain.any fun r => r.test s

/-- Substring-hit count of a keyword list against a lowercased query. -/
def keywordScore (lowerQuery : String) (keywords : List String) : ℕ :=
  (keywords.filter fun k => strIncludes lowerQuery (jsToLower k)).length

/-- Embeds `classifyQuery` of the query-classifier module. -/
def classifyQuery (query : String) : QueryClassification :=
  let lowerQuery := jsTrim (jsToLower query)
  let s := lowerQuery.data
  if ragPatternHit s then
    ⟨.rag, 9/10, "Query matches data retrieval pattern"⟩
  else if generalPatternHit s then
    ⟨.general, 9/10, "Query matches general conversation pattern"⟩
  else
    let ragScore := keywordScore lowerQuery RAG_KEYWORDS
    let generalScore := keywordScore lowerQuery GENERAL_KEYWORDS
    let totalScore := ragScore + generalScore
    if totalScore = 0 then
      ⟨.general, 1/2, "No clear data or general indicators found"⟩
    else
      let ragRatio : ℚ := (ragScore : ℚ) / (totalScore : ℚ)
      if ragRatio > 3/5 then
        ⟨.rag, min (1/2 + ragRatio * (2/5)) (19/20), "Query contains data-related keywords"⟩
      else if ragRatio < 2/5 then
        ⟨.general, min (1/2 + (1 - ragRatio) * (2/5)) (19/20),
         "Query contains general conversation keywords"⟩
      else
        ⟨if 0 < ragScore then .rag else .general, 3/5, "Mixed indicators, using best guess"⟩

/-- Embeds `shouldUseRAG`. -/
def shouldUseRAG (query : String) (hasDataLoaded : Bool) : Bool :=
  let classification := classifyQuery query
  if !hasDataLoaded then false else classification.type == .rag

/-! ## Hybrid search (vector-search module)

The store and the embedding provider are I/O collaborators; they are
modelled as oracles in an `IoWorld`:
* `emb` is the outcome of `getEmbedding(query)` — a rejection, a resolved
  value that is not an array (`data.embedding` missing or mistyped), or a
  vector;
* `table` is the content of `purchase_embeddings`, each row carrying the
  cosine distance (`vector <=> $1`, selected as `similarity`) that the store
  computes for this query's embedding;
* `storeFails` says whether `pool.query` rejects.
`logQuery` (db module) wraps its entire body in `try/catch` and only warns on
failure, so it can neither throw nor change any result; it needs no oracle. -/

structure RecordMetadataM where
  eventType : String
  price : Option ℚ
  searchTerm : Option String
  email : Option String
deriving DecidableEq, Repr

structure DbRow where
  id : ℕ
  similarity : ℚ
  metadata : RecordMetadataM
  event_type : String
  event_date : String
  email : String
deriving DecidableEq, Repr

structure SearchMatch where
  id : String
  score : ℚ
  metadata : RecordMetadataM
deriving DecidableEq, Repr

structure SearchResultM where
  /-- the `results.matches` array of the source's `SearchResult` -/
  matchList : List SearchMatch
  method : String
  filters : List String
  requestedTopK : ℕ
deriving DecidableEq, Repr

inductive EmbOutcome where
  | fails : EmbOutcome
  | notArray : EmbOutcome
  | ok (v : List ℚ) : EmbOutcome
deriving DecidableEq, Repr

structure IoWorld where
  emb : EmbOutcome
  storeFails : Bool
  table : List DbRow
deriving DecidableEq, Repr

/-- Truthiness of an optional number (`0` is falsy). -/
def numTruthy : Option ℚ → Bool
  | none => false
  | some v => v != 0

/-- Truthiness of an optional string (`""` is falsy). -/
def strTruthy : Option String → Bool
  | none => false
  | some s => s != ""

/-- Embeds `rowToMatch` (its unused `allRows` parameter is dropped):
`score` is `1 - parseFloat(String(similarity || 0))` — the *raw* base score,
not the re-ranked one — and the metadata email is re-scrambled
(`metadata.email ? scrambleEmail(metadata.email) : undefined`). -/
def rowToMatch (row : DbRow) : SearchMatch where
  id := toString row.id
  score := 1 - (if row.similarity = 0 then 0 else row.similarity)
  metadata :=
    { row.metadata with
      email := if strTruthy row.metadata.email then
          some (scrambleEmail (row.metadata.email.getD "")) else none }

/-- The additive re-rank adjustments of `reRankResults`, before clamping. -/
def reRankAdjust (queryLower : String) (row : DbRow) : ℚ :=
  let score := 1 - (if row.similarity = 0 then 0 else row.similarity)
  let score :=
    if (strIncludes queryLower "expensive" || strIncludes queryLower "highest price") &&
        numTruthy row.metadata.price
    then score + row.metadata.price.getD 0 / 1000 * (3/10) else score
  let score :=
    if (strIncludes queryLower "cheap" || strIncludes queryLower "lowest price") &&
        numTruthy row.metadata.price
    then score - row.metadata.price.getD 0 / 1000 * (3/10) else score
  let score :=
    if strTruthy row.metadata.searchTerm &&
        strIncludes queryLower (jsToLower (row.metadata.searchTerm.getD ""))
    then score + 1/5 else score
  score

/-- `Math.min(1.0, Math.max(0, score))`. -/
def clamp01 (x : ℚ) : ℚ := min 1 (max 0 x)

/-- Embeds `reRankResults`: attach the clamped adjusted score, sort stably by
it in descending order (`Array.prototype.sort` is stable and the comparator
is `b.rerankedScore - a.rerankedScore`), truncate to `topK`. -/
def reRankResults (rows : List DbRow) (query : String) (topK : ℕ) :
    List (DbRow × ℚ) :=
  let queryLower := jsToLower query
  ((sortBy (fun a b => a.2 ≥ b.2)
      (rows.map fun row => (row, clamp01 (reRankAdjust queryLower row)))).take topK)

/-- The `WHERE` conditions built by `semanticSearch`, in construction order. -/
inductive FilterCond where
  | eventTypeAny (vals : List String)
  | eventDateAny (vals : List String)
  | emailAny (vals : List String)
deriving DecidableEq, Repr

/-- `/\d{4}-\d{2}-\d{2}/.test(d)` (unanchored). -/
def isoTest (d : String) : Bool := (scanFirst isoDateAt d.data).isSome

/-- Embeds the condition-building part of `semanticSearch`. -/
def whereConditions (entities : QueryEntities) : List FilterCond :=
  (if entities.eventTypes ≠ [] then [.eventTypeAny entities.eventTypes] else []) ++
    (if entities.dates ≠ [] then
        (let exactDates := entities.dates.filter isoTest
         if exactDates ≠ [] then [.eventDateAny exactDates] else [])
      else []) ++
    (if entities.emails ≠ [] then [.emailAny entities.emails] else [])

/-- SQL semantics of one `column = ANY(list)` condition at a row. -/
def evalCond (row : DbRow) : FilterCond → Bool
  | .eventTypeAny vals => vals.contains row.event_type
  | .eventDateAny vals => vals.contains row.event_date
  | .emailAny vals => vals.contains row.email

/-- SQL semantics of the built `WHERE` clause (`AND` of all conditions; an
empty clause admits every row). -/
def matchesWhere (entities : QueryEntities) (row : DbRow) : Bool :=
  (whereConditions entities).all (evalCond row)

/-- Embeds `semanticSearch` as executed by the store: the rows admitted by
the `WHERE` clause, ordered by ascending `similarity` (cosine distance),
limited to `lim`. -/
def semanticSearch (table : List DbRow) (entities : QueryEntities) (lim : ℕ) :
    List DbRow :=
  ((sortBy (fun a b => a.similarity ≤ b.similarity)
      (table.filter (matchesWhere entities))).take lim)

/-- `Object.keys(entities)` whose value is a non-empty array, in field
order. -/
def nonEmptyEntityKeys (e : QueryEntities) : List String :=
  (if e.dates ≠ [] then ["dates"] else []) ++
    (if e.emails ≠ [] then ["emails"] else []) ++
    (if e.prices ≠ [] then ["prices"] else []) ++
    (if e.brands ≠ [] then ["brands"] else []) ++
    (if e.eventTypes ≠ [] then ["eventTypes"] else []) ++
    (if e.searchTerms ≠ [] then ["searchTerms"] else [])

inductive HybridOutcome where
  | err (msg : String) : HybridOutcome
  | ok (r : SearchResultM) : HybridOutcome
deriving DecidableEq, Repr

def HybridOutcome.isErr : HybridOutcome → Bool
  | .err _ => true
  | .ok _ => false

/-- Embeds `hybridSearch`.  The second component records whether the
vector-store query was issued. -/
def hybridSearch (w : IoWorld) (query : String) (entities0 : QueryEntities)
    (topK : ℕ) : HybridOutcome × Bool :=
  match w.emb with
  | .fails =>
    (.err "Failed to process query: embedding generation failed", false)
  | .notArray =>
    (.err "Failed to process query: Invalid query embedding generated", false)
  | .ok _ =>
    let ql := jsToLower query
    let isSearchQuery := entities0.eventTypes.contains "search" ||
      strIncludes ql "search" || strIncludes ql "query"
    let e1 := if isSearchQuery && !(entities0.eventTypes.contains "search") then
        { entities0 with eventTypes := entities0.eventTypes ++ ["search"] }
      else entities0
    let isPurchaseQuery := e1.eventTypes.contains "purchase" ||
      strIncludes ql "purchase" || strIncludes ql "buy" || strIncludes ql "bought"
    let e2 := if isPurchaseQuery && !(e1.eventTypes.contains "purchase") then
        { e1 with eventTypes := e1.eventTypes ++ ["purchase"] }
      else e1
    if w.storeFails then (.err "store query failed", true)
    else
      let semanticResults := semanticSearch w.table e2 (topK * 2)
      let rerankedResults := reRankResults semanticResults query topK
      (.ok
        { matchList := (rerankedResults.map fun rs => rowToMatch rs.1).take topK
          method := "hybrid-search"
          filters := nonEmptyEntityKeys e2
          requestedTopK := topK }, true)

/-- Embeds `processQuery` (`requestedTopK || defaultTopK`: the extractor only
returns positive — hence truthy — numbers, so `||` is `getD`; `logQuery`
swallows its own failures and the `catch` block re-throws, so the outcome is
that of `hybridSearch`). -/
def processQuery (w : IoWorld) (query : String) (defaultTopK : ℕ) :
    HybridOutcome × Bool :=
  let entities := extractEntities query
  let requestedTopK := extractTopKFromQuery query
  let finalTopK := requestedTopK.getD defaultTopK
  hybridSearch w query entities finalTopK

/-! ## Query analyzer (mcp-server model-analyzer.ts) -/

inductive QueryComplexity where
  | simple : QueryComplexity
  | moderate : QueryComplexity
  | complex : QueryComplexity
deriving DecidableEq, Repr

inductive QueryDomain where
  | general : QueryDomain
  | coding : QueryDomain
  | creative : QueryDomain
  | analytics : QueryDomain
  | technical : QueryDomain
deriving DecidableEq, Repr

structure QueryRequirements where
  needsLongContext : Bool
  needsReasoning : Bool
  needsCreativity : Bool
  needsCodeGeneration : Bool
  needsDataAnalysis : Bool
deriving DecidableEq, Repr

structure QueryAnalysis where
  complexity : QueryComplexity
  domain : QueryDomain
  requirements : QueryRequirements
  estimatedTokens : ℤ
  confidence : ℚ
deriving DecidableEq, Repr

/-- `SIMPLE_PATTERNS` (all `^`-anchored; the second is also `$`-anchored). -/
def simplePatternHit (s : List Char) : Bool :=
  Rx.testStart (catList [altList [litR "what", litR "who", litR "when", litR "where",
    litR "which", litR "how much", litR "how many"], ws1R]) s ||
    Rx.testBoth (catList [altList [litR "define", litR "explain", litR "describe",
      litR "tell me about"], ws1R, word1R]) s ||
    Rx.testStart (altList [litR "yes", litR "no", litR "thanks", litR "thank you",
      litR "hi", litR "hello", litR "hey"]) s

/-- `COMPLEX_PATTERNS` (all use `\b` only at the pattern edges). -/
def complexPatternHit (s : List Char) : Bool :=
  Rx.testWB (altList [litR "analyze", litR "compare", litR "evaluate", litR "synthesize",
    litR "design", litR "architect", litR "implement"]) s ||
    Rx.testWB (altList
      [catList [litR "explain", .star dotR, litR "why"],
       catList [litR "explain", .star dotR, litR "how", .star dotR, litR "work", optR (litR "s")],
       catList [litR "implication", optR (litR "s")],
       catList [litR "trade", optR (litR "-"), litR "off", optR (litR "s")]]) s ||
    Rx.testWB (altList [catList [litR "multi", optR (litR "-"), litR "step"],
      litR "complex", litR "intricate", litR "comprehensive"]) s ||
    Rx.testWB (altList [litR "algorithm", litR "optimization", litR "performance",
      litR "architecture"]) s

def CODING_KEYWORDS : List String :=
  ["code", "function", "class", "api", "bug", "debug", "implement", "algorithm",
   "typescript", "javascript", "python", "react", "component", "refactor",
   "test", "unit test", "integration", "repository", "git", "deploy"]

def CREATIVE_KEYWORDS : List String :=
  ["write", "create", "story", "poem", "article", "blog", "creative",
   "imagine", "brainstorm", "ideas", "suggest", "slogan", "marketing"]

def ANALYTICS_KEYWORDS : List String :=
  ["data", "analyze", "statistics", "metrics", "trends", "insights",
   "calculate", "measure", "report", "dashboard", "chart", "graph"]

def TECHNICAL_KEYWORDS : List String :=
  ["system", "architecture", "infrastructure", "database", "server",
   "scalability", "performance", "security", "optimization", "protocol"]

/-- `countKeywords`: how many keywords occur as substrings of `text`. -/
def countKeywords (text : String) (keywords : List String) : ℕ :=
  (keywords.filter fun k => strIncludes text k).length

/-- Core of `jsSplitWs`: `some acc` while inside a segment (reversed so
far), `none` while inside a whitespace separator run. -/
def jsSplitWsAux : List Char → Option (List Char) → List (List Char)
  | [], some acc => [acc.reverse]
  | [], none => [[]]
  | c :: rest, some acc =>
    if isSpaceCh c then acc.reverse :: jsSplitWsAux rest none
    else jsSplitWsAux rest (some (c :: acc))
  | c :: rest, none =>
    if isSpaceCh c then jsSplitWsAux rest none else jsSplitWsAux rest (some [c])

/-- `query.split(/\s+/)` of JavaScript: splitting on maximal whitespace
runs, with empty segments at the edges when the string starts/ends with
whitespace. -/
def jsSplitWs (s : List Char) : List (List Char) := jsSplitWsAux s (some [])

/-- The `\b`-edged requirement regexes of `analyzeQuery`. -/
def needsLongContextRx : Rx :=
  altList [litR "document", litR "article", litR "essay", litR "detailed", litR "comprehensive"]

def needsReasoningRx : Rx :=
  altList [litR "why", litR "how", litR "reason", litR "explain", litR "understand"]

def needsCreativityRx : Rx :=
  altList [litR "creative", litR "innovative", litR "unique", litR "original"]

def needsCodeGenerationRx : Rx :=
  altList [litR "write", litR "create", litR "implement", litR "code", litR "function",
           litR "class"]

def needsDataAnalysisRx : Rx :=
  altList [litR "analyze", litR "data", litR "statistics", litR "trends"]

/-- The max-scan of `analyzeQuery`'s domain selection, in `Object.entries`
order, starting from `(general, 0)` with a strict `>` update. -/
def domainScan (cCod cCre cAna cTec : ℕ) : QueryDomain :=
  let d := QueryDomain.general
  let m := 0
  let (d, m) := if cCod > m then (QueryDomain.coding, cCod) else (d, m)
  let (d, m) := if cCre > m then (QueryDomain.creative, cCre) else (d, m)
  let (d, m) := if cAna > m then (QueryDomain.analytics, cAna) else (d, m)
  let (d, _) := if cTec > m then (QueryDomain.technical, cTec) else (d, m)
  d

/-- Embeds `analyzeQuery`.  Patterns carry the `/i` flag and are tested
against the raw query; this is modelled by testing against the lowercased
query (the patterns are all-lowercase and their character classes are
case-stable). -/
def analyzeQuery (query : String) : QueryAnalysis :=
  let lowerQuery := jsTrim (jsToLower query)
  let low := (jsToLower query).data
  let wordCount := (jsSplitWs query.data).length
  let complexity : QueryComplexity :=
    if simplePatternHit low then .simple
    else if complexPatternHit low || wordCount > 30 then .complex
    else .moderate
  let cCod := countKeywords lowerQuery CODING_KEYWORDS
  let cCre := countKeywords lowerQuery CREATIVE_KEYWORDS
  let cAna := countKeywords lowerQuery ANALYTICS_KEYWORDS
  let cTec := countKeywords lowerQuery TECHNICAL_KEYWORDS
  let domain := domainScan cCod cCre cAna cTec
  let requirements : QueryRequirements :=
    { needsLongContext := wordCount > 50 || needsLongContextRx.testWB low
      needsReasoning := complexity == .complex || needsReasoningRx.testWB low
      needsCreativity := domain == .creative || needsCreativityRx.testWB low
      needsCodeGeneration := domain == .coding || needsCodeGenerationRx.testWB low
      needsDataAnalysis := domain == .analytics || needsDataAnalysisRx.testWB low }
  let estimatedTokens : ℤ := ⌈(wordCount : ℚ) * (13/10)⌉
  let totalKeywords := cCod + cCre + cAna + cTec
  let confidence : ℚ :=
    min (1/2 + (totalKeywords : ℚ) * (1/10) +
      (if complexity = .simple then 1/5 else 1/10)) (19/20)
  { complexity := complexity, domain := domain, requirements := requirements,
    estimatedTokens := estimatedTokens, confidence := confidence }

structure PriorityScores where
  speed : ℚ
  reasoning : ℚ
  coding : ℚ
  creative : ℚ
  analytics : ℚ
deriving DecidableEq, Repr

/-- Embeds `calculatePriorityScores` (sequential mutation of the `scores`
object: complexity adjustments, then the domain `switch` with direct
assignments, then the `Math.max` requirement raises). -/
def calculatePriorityScores (analysis : QueryAnalysis) : PriorityScores :=
  let s : PriorityScores := ⟨1/2, 1/2, 1/2, 1/2, 1/2⟩
  let s := match analysis.complexity with
    | .simple => { s with speed := 9/10, reasoning := 3/10 }
    | .complex => { s with speed := 3/10, reasoning := 9/10 }
    | .moderate => s
  let s := match analysis.domain with
    | .coding => { s with coding := 19/20, reasoning := 4/5 }
    | .creative => { s with creative := 19/20, reasoning := 7/10 }
    | .analytics => { s with analytics := 19/20, reasoning := 4/5 }
    | .technical => { s with reasoning := 9/10, coding := 7/10 }
    | .general => s
  let s := if analysis.requirements.needsReasoning then
      { s with reasoning := max s.reasoning (4/5) } else s
  let s := if analysis.requirements.needsCodeGeneration then
      { s with coding := max s.coding (17/20) } else s
  let s := if analysis.requirements.needsCreativity then
      { s with creative := max s.creative (17/20) } else s
  let s := if analysis.requirements.needsDataAnalysis then
      { s with analytics := max s.analytics (17/20) } else s
  s

/-! ## Model catalog (mcp-server model-capabilities.ts) -/

structure ModelCapability where
  model : String
  provider : String
  displayName : String
  contextWindow : ℚ
  maxOutputTokens : ℚ
  speed : ℚ
  reasoning : ℚ
  coding : ℚ
  creative : ℚ
  analytics : ℚ
  costPer1MInput : ℚ
  costPer1MOutput : ℚ
  available : Bool
deriving DecidableEq, Repr

/-- `MODEL_CAPABILITIES` verbatim. -/
def MODEL_CAPABILITIES : List ModelCapability :=
  [⟨"gpt-4", "openai", "GPT-4", 128000, 4096,
    6/10, 19/20, 19/20, 9/10, 9/10, 30, 60, true⟩,
   ⟨"gpt-4-turbo", "openai", "GPT-4 Turbo", 128000, 4096,
    3/4, 19/20, 19/20, 9/10, 9/10, 10, 30, true⟩,
   ⟨"gpt-3.5-turbo", "openai", "GPT-3.5 Turbo", 16385, 4096,
    19/20, 3/4, 4/5, 3/4, 7/10, 1/2, 3/2, true⟩,
   ⟨"gpt-4.1-mini", "openai", "GPT-4.1 Mini", 128000, 16384,
    9/10, 17/20, 22/25, 41/50, 4/5, 3/20, 3/5, true⟩,
   ⟨"gemini-2.0-flash-exp", "google", "Gemini 2.0 Flash", 1000000, 8192,
    49/50, 9/10, 23/25, 22/25, 17/20, 0, 0, true⟩,
   ⟨"gemini-1.5-pro", "google", "Gemini 1.5 Pro", 2000000, 8192,
    7/10, 93/100, 9/10, 17/20, 22/25, 5/4, 5, true⟩,
   ⟨"gemini-1.5-flash", "google", "Gemini 1.5 Flash", 1000000, 8192,
    19/20, 17/20, 17/20, 4/5, 41/50, 3/40, 3/10, true⟩,
   ⟨"claude-3-opus", "anthropic", "Claude 3 Opus", 200000, 4096,
    13/20, 49/50, 93/100, 19/20, 23/25, 15, 75, false⟩,
   ⟨"claude-3-sonnet", "anthropic", "Claude 3 Sonnet", 200000, 4096,
    4/5, 9/10, 22/25, 9/10, 87/100, 3, 15, false⟩,
   ⟨"llama3", "ollama", "Llama 3 (Local)", 8192, 2048,
    7/10, 3/4, 3/4, 7/10, 13/20, 0, 0, true⟩,
   ⟨"mistral:7b", "ollama", "Mistral 7B (Local)", 8192, 2048,
    17/20, 7/10, 18/25, 17/25, 13/20, 0, 0, true⟩]

/-- `getAvailableModels`. -/
def getAvailableModels : List ModelCapability :=
  MODEL_CAPABILITIES.filter fun m => m.available

/-! ## Model router (mcp-server model-router.ts) -/

structure RouterPreferences where
  prioritizeCost : Bool
  prioritizeSpeed : Bool
  prioritizeQuality : Bool
  maxCostPer1M : Option ℚ
  minSpeed : Option ℚ
deriving DecidableEq, Repr

/-- The empty preference object. -/
def noPrefs : RouterPreferences := ⟨false, false, false, none, none⟩

structure ModelRecommendation where
  model : String
  provider : String
  displayName : String
  score : ℚ
  reasoning : String
  costEstimate : Option ℚ
deriving DecidableEq, Repr

/-- The (unrounded) score accumulated by the body of `scoreModels` for one
model: capability match, additive preference modifiers, then the sequential
multiplicative constraint penalties, in source order. -/
def scoreModel (p : PriorityScores) (preferences : RouterPreferences)
    (analysis : QueryAnalysis) (m : ModelCapability) : ℚ :=
  let score := m.speed * p.speed * 20 + m.reasoning * p.reasoning * 25 +
    m.coding * p.coding * 20 + m.creative * p.creative * 15 +
    m.analytics * p.analytics * 15
  let score := if preferences.prioritizeCost then
      score + (if m.costPer1MInput = 0 then 20 else max 0 (20 - m.costPer1MInput))
    else score
  let score := if preferences.prioritizeSpeed then score + m.speed * 25 else score
  let score := if preferences.prioritizeQuality then score + m.reasoning * 30 else score
  let score := if numTruthy preferences.maxCostPer1M ∧
      m.costPer1MInput > (preferences.maxCostPer1M).getD 0 then score * (3/10) else score
  let score := if numTruthy preferences.minSpeed ∧
      m.speed < (preferences.minSpeed).getD 0 then score * (1/2) else score
  let score := if analysis.requirements.needsLongContext ∧ m.contextWindow < 32000
    then score * (7/10) else score
  score

/-- The `reasons` list accumulated by `scoreModels` for one model, in push
order. -/
def scoreReasons (p : PriorityScores) (preferences : RouterPreferences)
    (analysis : QueryAnalysis) (m : ModelCapability) : List String :=
  (if preferences.prioritizeCost ∧ m.costPer1MInput = 0 then ["zero cost"] else []) ++
    (if preferences.prioritizeSpeed ∧ m.speed > 9/10 then ["very fast"] else []) ++
    (if preferences.prioritizeQuality ∧ m.reasoning > 9/10 then
      ["high quality reasoning"] else []) ++
    (if numTruthy preferences.maxCostPer1M ∧
        m.costPer1MInput > (preferences.maxCostPer1M).getD 0 then
      ["exceeds cost limit"] else []) ++
    (if analysis.requirements.needsLongContext ∧ ¬ (m.contextWindow < 32000) ∧
        m.contextWindow ≥ 100000 then ["large context window"] else []) ++
    (if m.coding > 9/10 ∧ p.coding > 4/5 then ["excellent at coding"] else []) ++
    (if m.creative > 9/10 ∧ p.creative > 4/5 then ["excellent at creative tasks"] else []) ++
    (if m.reasoning > 9/10 ∧ p.reasoning > 4/5 then ["excellent reasoning ability"] else [])

/-- Embeds `scoreModels`: one `ModelRecommendation` per model, with the
rounded score (`Math.round(score)`), the joined reasons, and the cost
estimate (`undefined` unless positive). -/
def scoreModels (models : List ModelCapability) (p : PriorityScores)
    (preferences : RouterPreferences) (analysis : QueryAnalysis) :
    List ModelRecommendation :=
  models.map fun m =>
    let reasons := scoreReasons p preferences analysis m
    let costEstimate := (analysis.estimatedTokens : ℚ) *
      (m.costPer1MInput + m.costPer1MOutput) / 1000000
    { model := m.model
      provider := m.provider
      displayName := m.displayName
      score := (jsRound (scoreModel p preferences analysis m) : ℚ)
      reasoning := if reasons ≠ [] then String.intercalate ", " reasons
        else "balanced capabilities"
      costEstimate := if costEstimate > 0 then some costEstimate else none }

/-- The rounded router score of one available model, as an integer. -/
def intScore (p : PriorityScores) (preferences : RouterPreferences)
    (analysis : QueryAnalysis) (m : ModelCapability) : ℤ :=
  jsRound (scoreModel p preferences analysis m)

/-- The rounded scores of all available models, in catalog order (the list
`selectModel` sorts). -/
def routerScoresZ (p : PriorityScores) (preferences : RouterPreferences)
    (analysis : QueryAnalysis) : List ℤ :=
  getAvailableModels.map fun m => intScore p preferences analysis m

/-- Does entry `j` (score `sj`) precede entry `i` (score `si`) after the
stable descending sort `recommendations.sort((a, b) => b.score - a.score)`
of ES2019+ (ties keep original order)? -/
def beats (sj si : ℤ) (j i : ℕ) : Bool := si < sj || (sj == si && j < i)

/-- The 0-based position of entry `i` in the stable descending sort of
`scores`: the number of entries that precede it. -/
def stableRankAt (scores : List ℤ) (i : ℕ) : ℕ :=
  (List.range scores.length).countP fun j => beats (scores.getD j 0) (scores.getD i 0) j i

/-! ## Statement-side definitions used by the claim theorems -/

/-- The claim's reading of topK extraction: the first pattern (in the fixed
order) whose leftmost capture is a positive integer. -/
def firstPositiveCapture (ql : List Char) : Option ℕ :=
  topKPatternList.findSome? fun p =>
    (scanFirst p ql).bind fun k => if 0 < k then some k else none

/-- The claim's reading of `extractTopKFromQuery`: first positive capture,
else `5` when the word "top" occurs with no digit anywhere, else `null`. -/
def extractTopKClaim (query : String) : Option ℕ :=
  let ql := (jsToLower query).data
  (firstPositiveCapture ql).orElse fun _ =>
    if containsCh "top".data ql && !(ql.any isDigitCh) then some 5 else none

/-- The exact routing-score formula asserted by the router-scoring claim
(weighted capability match, plus the three preference bonuses, times the
three constraint penalty factors), with no rounding. -/
def claimScoreFormula (p : PriorityScores) (preferences : RouterPreferences)
    (analysis : QueryAnalysis) (m : ModelCapability) : ℚ :=
  (m.speed * p.speed * 20 + m.reasoning * p.reasoning * 25 +
      m.coding * p.coding * 20 + m.creative * p.creative * 15 +
      m.analytics * p.analytics * 15 +
    (if preferences.prioritizeCost then
      (if m.costPer1MInput = 0 then 20 else max 0 (20 - m.costPer1MInput)) else 0) +
    (if preferences.prioritizeSpeed then m.speed * 25 else 0) +
    (if preferences.prioritizeQuality then m.reasoning * 30 else 0)) *
  (if numTruthy preferences.maxCostPer1M ∧
      m.costPer1MInput > (preferences.maxCostPer1M).getD 0 then 3/10 else 1) *
  (if numTruthy preferences.minSpeed ∧ m.speed < (preferences.minSpeed).getD 0
    then 1/2 else 1) *
  (if analysis.requirements.needsLongContext ∧ m.contextWindow < 32000
    then 7/10 else 1)

/-- A placeholder `ModelCapability` for total list indexing. -/
def dummyCap : ModelCapability :=
  ⟨"", "", "", 0, 0, 0, 0, 0, 0, 0, 0, 0, false⟩

/-- A placeholder `ModelRecommendation` for total list indexing. -/
def dummyRec : ModelRecommendation := ⟨"", "", "", 0, "", none⟩

/-- `preferences` with `prioritizeCost` switched on (all else equal). -/
def withCostOn (preferences : RouterPreferences) : RouterPreferences :=
  { preferences with prioritizeCost := true }

/-- The capability-match part of the score plus the two additive preference
bonuses that do not depend on `prioritizeCost`. -/
def baseScore (p : PriorityScores) (preferences : RouterPreferences)
    (m : ModelCapability) : ℚ :=
  m.speed * p.speed * 20 + m.reasoning * p.reasoning * 25 +
    m.coding * p.coding * 20 + m.creative * p.creative * 15 +
    m.analytics * p.analytics * 15 +
    (if preferences.prioritizeSpeed then m.speed * 25 else 0) +
    (if preferences.prioritizeQuality then m.reasoning * 30 else 0)

/-- The `prioritizeCost` additive bonus. -/
def costBonus (m : ModelCapability) : ℚ :=
  if m.costPer1MInput = 0 then 20 else max 0 (20 - m.costPer1MInput)

/-- The product of the three multiplicative constraint penalties (independent
of `prioritizeCost`). -/
def penaltyFactor (preferences : RouterPreferences) (analysis : QueryAnalysis)
    (m : ModelCapability) : ℚ :=
  (if numTruthy preferences.maxCostPer1M ∧
      m.costPer1MInput > (preferences.maxCostPer1M).getD 0 then 3/10 else 1) *
    (if numTruthy preferences.minSpeed ∧ m.speed < (preferences.minSpeed).getD 0
      then 1/2 else 1) *
    (if analysis.requirements.needsLongContext ∧ m.contextWindow < 32000
      then 7/10 else 1)

/-- The candidate row of the re-rank/`rowToMatch` divergence: a stored row at
cosine distance `2` from the query embedding (cosine distance ranges over
`[0, 2]`, with `2` attained by an opposite-direction vector). -/
def farRow : DbRow :=
  { id := 1, similarity := 2, metadata := ⟨"purchase", none, none, none⟩,
    event_type := "purchase", event_date := "2024-01-01", email := "a@b.c" }

/-- The list of scores carried by the matches of an outcome. -/
def outcomeScores : HybridOutcome → List ℚ
  | .err _ => []
  | .ok r => r.matchList.map fun m => m.score

/-- A world whose embedding call succeeds and whose store holds `farRow`. -/
def farWorld : IoWorld := { emb := .ok [1], storeFails := false, table := [farRow] }

/-- A world whose embedding call succeeds but whose store query rejects. -/
def storeDownWorld : IoWorld := { emb := .ok [1], storeFails := true, table := [] }

/-! ## Theorems -/

/-- `List.find?` returns the first element satisfying the predicate. -/
theorem findFirstSplit {α : Type} (p : α → Bool) :
    ∀ (l : List α) (b : α), l.find? p = some b →
      ∃ l1 l2, l = l1 ++ b :: l2 ∧ p b = true ∧ ∀ x ∈ l1, p x = false := by
  intro l
  induction l with
  | nil => intro b h; simp [List.find?] at h
  | cons a t ih =>
    intro b h
    by_cases hp : p a
    · rw [List.find?_cons_of_pos _ hp] at h
      obtain rfl : a = b := by simpa using h
      exact ⟨[], t, by simp, hp, by simp⟩
    · rw [List.find?_cons_of_neg _ (by simpa using hp)] at h
      obtain ⟨l1, l2, hsplit, hb, hfirst⟩ := ih b h
      refine ⟨a :: l1, l2, by simp [hsplit], hb, ?_⟩
      intro x hx
      rcases List.mem_cons.mp hx with rfl | hx
      · simpa using hp
      · exact hfirst x hx

/-- C10: `scrambleEmail` yields `""` on empty input; it returns the input
unchanged when the input has no `'@'`, or when the split yields an empty
local part or an empty domain (first two split components); otherwise it
yields the first `min 4 L` characters of the local part, `max 3 (L - 4)`
mask characters `'#'`, and `'@'` followed by the domain component. -/
theorem claim_C10_scrambleEmail :
    scrambleEmail "" = "" ∧
    (∀ e l, jsSplitAt e '@' = [l] → scrambleEmail e = e) ∧
    (∀ e l d rest, jsSplitAt e '@' = l :: d :: rest → l = "" ∨ d = "" →
      scrambleEmail e = e) ∧
    (∀ e l d rest, jsSplitAt e '@' = l :: d :: rest → l ≠ "" → d ≠ "" →
      scrambleEmail e = String.mk (l.data.take (min 4 l.data.length)) ++
        String.mk (List.replicate (max 3 (l.data.length - 4)) '#') ++ "@" ++ d) := by
  refine ⟨rfl, ?_, ?_, ?_⟩
  · intro e l h
    by_cases he : e = ""
    · subst he; rfl
    · rw [scrambleEmail, if_neg he, h]
  · intro e l d rest h hld
    by_cases he : e = ""
    · subst he; rfl
    · rw [scrambleEmail, if_neg he, h]
      simp only [if_pos hld]
  · intro e l d rest h hl hd
    have he : e ≠ "" := by
      intro he
      subst he
      have h0 : jsSplitAt "" '@' = [""] := rfl
      rw [h0] at h
      simp at h
    rw [scrambleEmail, if_neg he, h]
    simp only [if_neg (by tauto : ¬ (l = "" ∨ d = ""))]
    have hm : max 3 (l.data.length - min 4 l.data.length) =
        max 3 (l.data.length - 4) := by omega
    rw [hm]

/-- Concrete evaluations discharging the hypotheses of the `scrambleEmail`
theorem. -/
theorem claim_C10_scrambleEmail_witness :
    scrambleEmail "john.doe@example.com" = "john####@example.com" ∧
    scrambleEmail "nodomain" = "nodomain" ∧
    scrambleEmail "@example.com" = "@example.com" := by
  refine ⟨?_, ?_, ?_⟩
  · have h := claim_C10_scrambleEmail.2.2.2 "john.doe@example.com" "john.doe"
      "example.com" [] (by decide) (by decide) (by decide)
    rw [h]; decide
  · exact claim_C10_scrambleEmail.2.1 "nodomain" "nodomain" (by decide)
  · exact claim_C10_scrambleEmail.2.2.1 "@example.com" "" "example.com" []
      (by decide) (Or.inl rfl)

/-- C9: the `brands` field of the extracted entities holds at most one
element; it is empty when no known brand occurs in the query, and otherwise
holds exactly the first brand, in the fixed list order, that occurs
case-insensitively in the query. -/
theorem claim_C9_singleBrand (q : String) :
    (extractEntities q).brands.length ≤ 1 ∧
    ((∀ b ∈ knownBrands, brandOccurs q b = false) → (extractEntities q).brands = []) ∧
    (∀ b, b ∈ (extractEntities q).brands →
      ∃ l1 l2, knownBrands = l1 ++ b :: l2 ∧ brandOccurs q b = true ∧
        ∀ b' ∈ l1, brandOccurs q b' = false) := by
  have hbr : (extractEntities q).brands = (extractBrand q).elim [] (fun b => [b]) := rfl
  cases hfind : extractBrand q with
  | none =>
    refine ⟨?_, ?_, ?_⟩
    · rw [hbr, hfind]; simp
    · intro _; rw [hbr, hfind]; rfl
    · intro b hb; rw [hbr, hfind] at hb; simp at hb
  | some b0 =>
    refine ⟨?_, ?_, ?_⟩
    · rw [hbr, hfind]; simp
    · intro hall
      have : extractBrand q = none := by
        rw [extractBrand, List.find?_eq_none]
        intro x hx
        simp [hall x hx]
      rw [this] at hfind; cases hfind
    · intro b hb
      rw [hbr, hfind] at hb
      obtain rfl : b = b0 := by simpa using hb
      exact findFirstSplit _ knownBrands b hfind

/-- Concrete evaluation discharging the hypotheses of the brand-uniqueness
theorem: a query naming two known brands yields only the earlier-listed
one. -/
theorem claim_C9_singleBrand_witness :
    (extractEntities "compare dior and mac lipsticks").brands = ["dior"] ∧
    ((∀ b ∈ knownBrands, brandOccurs "hello" b = false) →
      (extractEntities "hello").brands = []) ∧
    (extractEntities "hello").brands = [] := by
  refine ⟨by decide, (claim_C9_singleBrand "hello").2.1, ?_⟩
  exact (claim_C9_singleBrand "hello").2.1 (by decide)

/-- C8: entity extraction is a total pure function: for every query string it
yields the record of its six extractor components (each a possibly-empty
list), and on the empty string every field is the empty list. -/
theorem claim_C8_extractorTotal (q : String) :
    extractEntities q =
      { dates := extractDates q
        emails := extractEmails q
        prices := extractPrices q
        brands := (extractBrand q).elim [] fun b => [b]
        eventTypes := detectEventTypeFromQuery q
        searchTerms := extractSearchTerms q } ∧
    extractEntities "" = ⟨[], [], [], [], [], []⟩ :=
  ⟨rfl, by decide⟩

/-- The source's topK loop agrees with a first-positive-capture scan of the
pattern list. -/
theorem topKLoop_eq_findSome (ql : List Char) :
    ∀ ps, topKLoop ql ps =
      ps.findSome? fun p => (scanFirst p ql).bind fun k =>
        if 0 < k then some k else none := by
  intro ps
  induction ps with
  | nil => rfl
  | cons p rest ih =>
    rw [topKLoop, List.findSome?]
    cases h : scanFirst p ql with
    | none => simpa [h] using ih
    | some k =>
      by_cases hk : 0 < k
      · simp [h, hk]
      · simpa [h, hk] using ih

/-- C5: topK extraction tries the eight patterns in their fixed order,
returning the first positive captured integer; with no such capture it falls
back to `5` when "top" occurs with no digit anywhere, else `null`; and the
four pinned examples evaluate as claimed. -/
theorem claim_C5_topKExtraction :
    (∀ q, extractTopKFromQuery q = extractTopKClaim q) ∧
    extractTopKFromQuery "top 3 purchases" = some 3 ∧
    extractTopKFromQuery "show me 7 items" = some 7 ∧
    extractTopKFromQuery "top purchases" = some 5 ∧
    extractTopKFromQuery "show purchases" = none := by
  refine ⟨?_, by decide, by decide, by decide, by decide⟩
  intro q
  rw [extractTopKFromQuery, extractTopKClaim, firstPositiveCapture,
    topKLoop_eq_findSome]
  cases (topKPatternList.findSome? fun p =>
      (scanFirst p ((jsToLower q).data)).bind fun k =>
        if 0 < k then some k else none) with
  | none => rfl
  | some k => rfl

/-- C4: on queries matching no strong RAG pattern and no strong general
pattern, the classifier's keyword branch behaves exactly as claimed: both
scores zero gives `general` at confidence `0.5`; a RAG ratio above `0.6`
gives `rag` at `min (0.5 + ratio·0.4) 0.95`; below `0.4` gives `general` at
`min (0.5 + (1 − ratio)·0.4) 0.95`; in the band `[0.4, 0.6]` the type is
`rag` exactly when the RAG score is positive (else `general`), at confidence
`0.6`. -/
theorem claim_C4_classifierKeywordBranch (q : String)
    (hR : ragPatternHit (jsTrim (jsToLower q)).data = false)
    (hG : generalPatternHit (jsTrim (jsToLower q)).data = false) :
    (keywordScore (jsTrim (jsToLower q)) RAG_KEYWORDS = 0 ∧
        keywordScore (jsTrim (jsToLower q)) GENERAL_KEYWORDS = 0 →
      classifyQuery q = ⟨.general, 1/2, "No clear data or general indicators found"⟩) ∧
    (∀ rs gs : ℕ, keywordScore (jsTrim (jsToLower q)) RAG_KEYWORDS = rs →
      keywordScore (jsTrim (jsToLower q)) GENERAL_KEYWORDS = gs →
      rs + gs ≠ 0 →
      ((rs : ℚ) / ((rs : ℚ) + (gs : ℚ)) > 3/5 →
        classifyQuery q = ⟨.rag, min (1/2 + (rs : ℚ) / ((rs : ℚ) + (gs : ℚ)) * (2/5)) (19/20),
          "Query contains data-related keywords"⟩) ∧
      ((rs : ℚ) / ((rs : ℚ) + (gs : ℚ)) < 2/5 →
        classifyQuery q = ⟨.general,
          min (1/2 + (1 - (rs : ℚ) / ((rs : ℚ) + (gs : ℚ))) * (2/5)) (19/20),
          "Query contains general conversation keywords"⟩) ∧
      (2/5 ≤ (rs : ℚ) / ((rs : ℚ) + (gs : ℚ)) → (rs : ℚ) / ((rs : ℚ) + (gs : ℚ)) ≤ 3/5 →
        classifyQuery q = ⟨if 0 < rs then .rag else .general, 3/5,
          "Mixed indicators, using best guess"⟩)) := by
  have hcast : ∀ rs gs : ℕ, ((rs + gs : ℕ) : ℚ) = (rs : ℚ) + (gs : ℚ) := by
    intro rs gs; push_cast; ring
  constructor
  · intro ⟨h1, h2⟩
    rw [classifyQuery]
    simp only [hR, hG, h1, h2, Bool.false_eq_true, if_false]
    norm_num
  · intro rs gs h1 h2 hne
    rw [classifyQuery]
    simp only [hR, hG, h1, h2, Bool.false_eq_true, if_false, hcast]
    refine ⟨?_, ?_, ?_⟩
    · intro hgt
      rw [if_neg hne, if_pos hgt]
    · intro hlt
      rw [if_neg hne, if_neg (by linarith), if_pos hlt]
    · intro hge hle
      rw [if_neg hne, if_neg (by linarith), if_neg (by linarith)]

/-- Concrete evaluations discharging the classifier theorem's hypotheses:
`"price"` (one data keyword, no general keyword) classifies as `rag` at
confidence `0.9` through the ratio branch. -/
theorem claim_C4_classifierKeywordBranch_witness :
    classifyQuery "price" = ⟨.rag, 9/10, "Query contains data-related keywords"⟩ ∧
    classifyQuery "zzz" = ⟨.general, 1/2, "No clear data or general indicators found"⟩ := by
  constructor
  · have h := ((claim_C4_classifierKeywordBranch "price" (by decide) (by decide)).2
      1 0 (by decide) (by decide) (by decide)).1 (by norm_num)
    rw [h]
    norm_num
  · exact (claim_C4_classifierKeywordBranch "zzz" (by decide) (by decide)).1
      ⟨by decide, by decide⟩

/-- C7: when both an event-type entity and an email entity are present the
built `WHERE` clause is the conjunction of the per-category `ANY` filters
(with the exact-ISO-date filter added exactly when ISO dates are present),
so the filtered candidate set is exactly the stored rows satisfying every
present filter category. -/
theorem claim_C7_filterConjunction (e : QueryEntities)
    (h1 : e.eventTypes ≠ []) (h2 : e.emails ≠ []) :
    (∀ row : DbRow, matchesWhere e row =
      (e.eventTypes.contains row.event_type &&
        (if e.dates.filter isoTest ≠ [] then
          (e.dates.filter isoTest).contains row.event_date else true) &&
        e.emails.contains row.email)) ∧
    (∀ table : List DbRow, table.filter (matchesWhere e) =
      table.filter fun row =>
        e.eventTypes.contains row.event_type &&
        (if e.dates.filter isoTest ≠ [] then
          (e.dates.filter isoTest).contains row.event_date else true) &&
        e.emails.contains row.email) := by
  have hpoint : ∀ row : DbRow, matchesWhere e row =
      (e.eventTypes.contains row.event_type &&
        (if e.dates.filter isoTest ≠ [] then
          (e.dates.filter isoTest).contains row.event_date else true) &&
        e.emails.contains row.email) := by
    intro row
    rw [matchesWhere, whereConditions]
    rw [if_pos h1, if_pos h2]
    by_cases hd : e.dates = []
    · have : e.dates.filter isoTest = [] := by rw [hd]; rfl
      rw [if_neg (by simp [hd]), this]
      simp [evalCond]
    · rw [if_pos hd]
      by_cases hx : e.dates.filter isoTest = []
      · rw [hx]
        simp [evalCond]
      · rw [if_pos hx]
        simp only [if_pos hx]
        simp [evalCond, Bool.and_assoc, Bool.and_comm, Bool.and_left_comm]
  refine ⟨hpoint, ?_⟩
  intro table
  apply List.filter_congr
  intro row _
  exact hpoint row

/-- Concrete evaluation discharging the filter-conjunction theorem's
hypotheses: a two-category entity set (plus an ISO date) filters a
three-row fixture table down to exactly the row satisfying every filter. -/
theorem claim_C7_filterConjunction_witness :
    (List.filter
        (matchesWhere ⟨["2024-01-01"], ["a@b.co"], [], [], ["purchase"], []⟩)
        [⟨1, 0, ⟨"purchase", none, none, none⟩, "purchase", "2024-01-01", "a@b.co"⟩,
         ⟨2, 0, ⟨"purchase", none, none, none⟩, "purchase", "2024-01-01", "x@y.co"⟩,
         ⟨3, 0, ⟨"search", none, none, none⟩, "search", "2024-01-01", "a@b.co"⟩] =
      [⟨1, 0, ⟨"purchase", none, none, none⟩, "purchase", "2024-01-01", "a@b.co"⟩]) ∧
    (∀ row : DbRow,
      matchesWhere ⟨["2024-01-01"], ["a@b.co"], [], [], ["purchase"], []⟩ row =
        ((["purchase"] : List String).contains row.event_type &&
          (["2024-01-01"] : List String).contains row.event_date &&
          (["a@b.co"] : List String).contains row.email)) := by
  constructor
  · decide
  · intro row
    have h := (claim_C7_filterConjunction
      ⟨["2024-01-01"], ["a@b.co"], [], [], ["purchase"], []⟩
      (by decide) (by decide)).1 row
    rw [h]
    norm_num [show (["2024-01-01"] : List String).filter isoTest = ["2024-01-01"] from
      by decide]

/-- Counterexample to C2 as stated: a world whose embedding call succeeds
(`.ok [1]`) but whose vector-store query rejects still makes `processQuery`
throw, so stages other than embedding generation can cause a throw. -/
theorem claim_C2_counterexample :
    storeDownWorld.emb = .ok [1] ∧
    (processQuery storeDownWorld "hello" 10).1.isErr = true ∧
    (processQuery (⟨.ok [1], false, []⟩ : IoWorld) "hello" 10).1.isErr = false :=
  ⟨rfl, by decide, by decide⟩

/-- C2 (amended): `processQuery` throws exactly when embedding generation
fails, the resolved embedding is not an array, or the vector-store query
rejects; in the two embedding cases it throws before any store query is
issued.  The query-log sink and all pure stages never cause a throw (the
model needs no oracle for `logQuery`, which catches its own errors). -/
theorem claim_C2_throwConditions (w : IoWorld) (q : String) (k : ℕ) :
    ((processQuery w q k).1.isErr = true ↔
      (w.emb = .fails ∨ w.emb = .notArray ∨ w.storeFails = true)) ∧
    ((w.emb = .fails ∨ w.emb = .notArray) → (processQuery w q k).2 = false) := by
  obtain ⟨emb, sf, table⟩ := w
  cases emb with
  | fails => simp [processQuery, hybridSearch, HybridOutcome.isErr]
  | notArray => simp [processQuery, hybridSearch, HybridOutcome.isErr]
  | ok v =>
    cases sf with
    | false => simp [processQuery, hybridSearch, HybridOutcome.isErr]
    | true => simp [processQuery, hybridSearch, HybridOutcome.isErr]

/-- Concrete evaluations discharging the hypotheses of the throw-condition
theorem: with a failing embedding no store call happens. -/
theorem claim_C2_throwConditions_witness :
    (processQuery (⟨.fails, false, []⟩ : IoWorld) "hello" 10).2 = false ∧
    (processQuery (⟨.fails, false, []⟩ : IoWorld) "hello" 10).1.isErr = true :=
  ⟨(claim_C2_throwConditions ⟨.fails, false, []⟩ "hello" 10).2 (Or.inl rfl),
   (claim_C2_throwConditions ⟨.fails, false, []⟩ "hello" 10).1.mpr (Or.inl rfl)⟩

/-- C1 (code bug): `reRankResults` computes and attaches the clamped
adjusted score (here `0`), but `rowToMatch` builds the returned
`SearchMatch` from the raw `1 − similarity` instead, so a row at cosine
distance `2` is reported with score `−1`, outside `[0, 1]` and different
from its clamped re-ranked score `0`. -/
theorem claim_C1_rerankClampBug :
    outcomeScores (processQuery farWorld "hello" 10).1 = [-1] ∧
    (reRankResults (semanticSearch farWorld.table (extractEntities "hello") 20)
        "hello" 10).map (fun rs => rs.2) = [0] ∧
    ¬ ((0 : ℚ) ≤ -1) := by
  refine ⟨?_, ?_, by norm_num⟩
  · have h : outcomeScores (processQuery farWorld "hello" 10).1 =
        [1 - (if (2 : ℚ) = 0 then 0 else 2)] := rfl
    rw [h]
    norm_num
  · have h : (reRankResults (semanticSearch farWorld.table (extractEntities "hello") 20)
        "hello" 10).map (fun rs => rs.2) =
        [clamp01 (1 - (if (2 : ℚ) = 0 then 0 else 2))] := rfl
    rw [h, clamp01]
    norm_num

/-- Counterexample to C3 as stated: with the all-`0.5` priority vector (from
the real query `"lipstick"`) and no preferences, the first catalog model's
carried score is `41`, but the claimed exact formula value is
`40.875 = 327/8` — `scoreModels` rounds with `Math.round`. -/
theorem claim_C3_counterexample :
    ((scoreModels getAvailableModels (calculatePriorityScores (analyzeQuery "lipstick"))
        noPrefs (analyzeQuery "lipstick")).headD dummyRec).score = 41 ∧
    claimScoreFormula (calculatePriorityScores (analyzeQuery "lipstick")) noPrefs
      (analyzeQuery "lipstick") (getAvailableModels.headD dummyCap) = 327/8 ∧
    ((41 : ℚ) ≠ 327/8) := by
  have hp : calculatePriorityScores (analyzeQuery "lipstick") =
      ⟨1/2, 1/2, 1/2, 1/2, 1/2⟩ := by
    have hc : (analyzeQuery "lipstick").complexity = .moderate := by decide
    have hd : (analyzeQuery "lipstick").domain = .general := by decide
    have hr : (analyzeQuery "lipstick").requirements =
        ⟨false, false, false, false, false⟩ := by decide
    simp [calculatePriorityScores, hc, hd, hr]
  have hL : (analyzeQuery "lipstick").requirements.needsLongContext = false := by decide
  refine ⟨?_, ?_, by norm_num⟩
  · have h : ((scoreModels getAvailableModels (calculatePriorityScores (analyzeQuery
        "lipstick")) noPrefs (analyzeQuery "lipstick")).headD dummyRec).score =
        (jsRound (scoreModel (calculatePriorityScores (analyzeQuery "lipstick"))
          noPrefs (analyzeQuery "lipstick") (getAvailableModels.headD dummyCap)) : ℚ) :=
      rfl
    rw [h, hp]
    rw [show getAvailableModels.headD dummyCap = MODEL_CAPABILITIES.headD dummyCap from rfl]
    simp only [scoreModel, MODEL_CAPABILITIES, noPrefs, numTruthy, List.headD, jsRound, hL]
    norm_num
  · rw [hp, show getAvailableModels.headD dummyCap = MODEL_CAPABILITIES.headD dummyCap
      from rfl]
    simp only [claimScoreFormula, MODEL_CAPABILITIES, noPrefs, numTruthy, List.headD, hL]
    norm_num

set_option maxHeartbeats 1000000 in
/-- C3 (amended): for every priority vector, preference set and analysis,
the score carried by each `ModelRecommendation` is exactly `Math.round` of
the claimed formula (weighted capability match, plus the cost/speed/quality
preference bonuses, times the `0.3`/`0.5`/`0.7` constraint penalties). -/
theorem claim_C3_scoreFormulaRounded (models : List ModelCapability)
    (p : PriorityScores) (prefs : RouterPreferences) (a : QueryAnalysis) :
    (scoreModels models p prefs a).map (fun r => r.score) =
      models.map fun m => ((jsRound (claimScoreFormula p prefs a m) : ℚ)) := by
  rw [scoreModels, List.map_map]
  apply List.map_congr_left
  intro m _
  have h : scoreModel p prefs a m = claimScoreFormula p prefs a m := by
    simp only [scoreModel, claimScoreFormula]
    split_ifs <;> ring
  simp only [Function.comp]
  rw [h]

theorem jsRound_mono {x y : ℚ} (h : x ≤ y) : jsRound x ≤ jsRound y := by
  unfold jsRound
  exact Int.floor_le_floor (by linarith)

theorem jsRound_add_int (x : ℚ) (n : ℤ) : jsRound (x + (n : ℚ)) = jsRound x + n := by
  unfold jsRound
  rw [show x + (n : ℚ) + 1/2 = (x + 1/2) + (n : ℚ) by ring, Int.floor_add_int]

theorem jsRound_lt {x y : ℚ} (h : x + 1 ≤ y) : jsRound x < jsRound y := by
  have h1 : jsRound (x + ((1 : ℤ) : ℚ)) ≤ jsRound y := jsRound_mono (by push_cast; linarith)
  rw [jsRound_add_int] at h1
  omega

set_option maxHeartbeats 2000000 in
/-- `scoreModel` factors as penalty product times (base plus optional cost
bonus). -/
theorem scoreModel_factored (p : PriorityScores) (prefs : RouterPreferences)
    (a : QueryAnalysis) (m : ModelCapability) :
    scoreModel p prefs a m = penaltyFactor prefs a m *
      (baseScore p prefs m + (if prefs.prioritizeCost then costBonus m else 0)) := by
  simp only [scoreModel, penaltyFactor, baseScore, costBonus]
  split_ifs <;> ring

theorem costBonus_nonneg (m : ModelCapability) : 0 ≤ costBonus m := by
  unfold costBonus
  split_ifs
  · norm_num
  · exact le_max_left 0 _

theorem costBonus_le (m : ModelCapability) (h : 0 ≤ m.costPer1MInput) :
    costBonus m ≤ 20 := by
  unfold costBonus
  split_ifs
  · norm_num
  · exact max_le (by norm_num) (by linarith)

/-- Core order-preservation step for one competitor pair after enabling the
cost preference.  Either the competitor's rounded gain is bounded by the
zero-cost model's exact integral gain `n = 20·PZ` (so relative order is
kept), or the competitor's real pre-bonus score already exceeds the
zero-cost model's by at least one (so it was strictly above before). -/
theorem pairSide (bZ bM bonus PZ PM : ℚ) (n : ℤ) (hn : (n : ℚ) = 20 * PZ)
    (hcase : PM * bonus ≤ 20 * PZ ∨ PZ * bZ + 1 ≤ PM * bM) :
    (jsRound (PZ * (bZ + 20)) ≤ jsRound (PM * (bM + bonus)) →
      jsRound (PZ * bZ) ≤ jsRound (PM * bM)) ∧
    (jsRound (PZ * (bZ + 20)) < jsRound (PM * (bM + bonus)) →
      jsRound (PZ * bZ) < jsRound (PM * bM)) := by
  rcases hcase with hA | hB
  · have e1 : PZ * (bZ + 20) = PZ * bZ + (n : ℚ) := by rw [hn]; ring
    have e2 : jsRound (PM * (bM + bonus)) ≤ jsRound (PM * bM) + n := by
      have hle : PM * (bM + bonus) ≤ PM * bM + (n : ℚ) := by rw [hn]; nlinarith [hA]
      have := jsRound_mono hle
      rwa [jsRound_add_int] at this
    rw [e1, jsRound_add_int]
    omega
  · have h := jsRound_lt hB
    exact ⟨fun _ => le_of_lt h, fun _ => h⟩

set_option maxHeartbeats 2000000 in
/-- Enabling `prioritizeCost` preserves the pairwise order (both weak and
strict) between a zero-cost model `Z` and any competitor `M`, provided the
cost cap, when present, is non-negative, given the catalog facts about `M`
and `Z` and the base-score slack between them. -/
theorem pairPreserved (p : PriorityScores) (prefs : RouterPreferences)
    (a : QueryAnalysis) (Z M : ModelCapability)
    (hpc : prefs.prioritizeCost = false)
    (hmc : ∀ v, prefs.maxCostPer1M = some v → 0 ≤ v)
    (hZ0 : Z.costPer1MInput = 0)
    (hM0 : 0 ≤ M.costPer1MInput)
    (hMspd : M.speed ≤ 98/100)
    (hZwin : Z.contextWindow < 32000 ∨ Z.speed = 98/100)
    (hbZ : 0 ≤ baseScore p prefs Z)
    (hsl : 7/10 * baseScore p prefs Z + 2 ≤ baseScore p prefs M) :
    (intScore p (withCostOn prefs) a Z ≤ intScore p (withCostOn prefs) a M →
      intScore p prefs a Z ≤ intScore p prefs a M) ∧
    (intScore p (withCostOn prefs) a Z < intScore p (withCostOn prefs) a M →
      intScore p prefs a Z < intScore p prefs a M) := by
  have hfZ1 : ¬ (numTruthy prefs.maxCostPer1M = true ∧
      Z.costPer1MInput > prefs.maxCostPer1M.getD 0) := by
    rintro ⟨ht, hgt⟩
    cases hmax : prefs.maxCostPer1M with
    | none => rw [hmax] at ht; simp [numTruthy] at ht
    | some v =>
      have hv := hmc v hmax
      rw [hmax, hZ0] at hgt
      simp only [Option.getD_some] at hgt
      linarith
  have hcbZ : costBonus Z = 20 := by simp [costBonus, hZ0]
  have hb0 := costBonus_nonneg M
  have hb20 := costBonus_le M hM0
  have hpw : penaltyFactor (withCostOn prefs) a Z = penaltyFactor prefs a Z := rfl
  have hpwM : penaltyFactor (withCostOn prefs) a M = penaltyFactor prefs a M := rfl
  have hbw : baseScore p (withCostOn prefs) Z = baseScore p prefs Z := rfl
  have hbwM : baseScore p (withCostOn prefs) M = baseScore p prefs M := rfl
  have hwct : (withCostOn prefs).prioritizeCost = true := rfl
  simp only [intScore, scoreModel_factored, hpw, hpwM, hbw, hbwM, hwct, hpc,
    Bool.false_eq_true, if_false, if_true, add_zero, hcbZ]
  simp only [penaltyFactor, if_neg hfZ1]
  by_cases hzs : numTruthy prefs.minSpeed = true ∧ Z.speed < prefs.minSpeed.getD 0 <;>
  by_cases hzx : a.requirements.needsLongContext = true ∧ Z.contextWindow < 32000 <;>
  by_cases hmcp : numTruthy prefs.maxCostPer1M = true ∧
    M.costPer1MInput > prefs.maxCostPer1M.getD 0 <;>
  by_cases hms : numTruthy prefs.minSpeed = true ∧ M.speed < prefs.minSpeed.getD 0 <;>
  by_cases hmx : a.requirements.needsLongContext = true ∧ M.contextWindow < 32000 <;>
  (first | rw [if_pos hzs] | rw [if_neg hzs]) <;>
  (first | rw [if_pos hzx] | rw [if_neg hzx]) <;>
  (first | rw [if_pos hmcp] | rw [if_neg hmcp]) <;>
  (first | rw [if_pos hms] | rw [if_neg hms]) <;>
  (first | rw [if_pos hmx] | rw [if_neg hmx]) <;>
  first
  | (exfalso
     have hzw : ¬ Z.contextWindow < 32000 := fun hw => hzx ⟨hmx.1, hw⟩
     rcases hZwin with hwin | hspd
     · exact hzw hwin
     · have hmge : ¬ M.speed < prefs.minSpeed.getD 0 := fun hlt2 => hms ⟨hzs.1, hlt2⟩
       have hzlt := hzs.2
       rw [hspd] at hzlt
       push_neg at hmge
       linarith)
  | ((refine pairSide _ _ _ _ _ 20 ?_ ?_) <;>
      first | (left ; nlinarith) | (right ; nlinarith) | (norm_num ; done))
  | ((refine pairSide _ _ _ _ _ 14 ?_ ?_) <;>
      first | (left ; nlinarith) | (right ; nlinarith) | (norm_num ; done))
  | ((refine pairSide _ _ _ _ _ 10 ?_ ?_) <;>
      first | (left ; nlinarith) | (right ; nlinarith) | (norm_num ; done))
  | ((refine pairSide _ _ _ _ _ 7 ?_ ?_) <;>
      first | (left ; nlinarith) | (right ; nlinarith) | (norm_num ; done))

set_option maxHeartbeats 2000000 in
/-- Every priority score produced by `calculatePriorityScores` lies in the
bounded box `[3/10, 1]` (speed, reasoning) resp. `[1/2, 1]` (coding,
creative, analytics). -/
theorem priorityScores_bounds (a : QueryAnalysis) :
    (3/10 ≤ (calculatePriorityScores a).speed ∧ (calculatePriorityScores a).speed ≤ 1) ∧
    (3/10 ≤ (calculatePriorityScores a).reasoning ∧
      (calculatePriorityScores a).reasoning ≤ 1) ∧
    (1/2 ≤ (calculatePriorityScores a).coding ∧ (calculatePriorityScores a).coding ≤ 1) ∧
    (1/2 ≤ (calculatePriorityScores a).creative ∧
      (calculatePriorityScores a).creative ≤ 1) ∧
    (1/2 ≤ (calculatePriorityScores a).analytics ∧
      (calculatePriorityScores a).analytics ≤ 1) := by
  obtain ⟨c, d, ⟨r1, r2, r3, r4, r5⟩, t, cf⟩ := a
  rcases c <;> rcases d <;> rcases r2 <;> rcases r3 <;> rcases r4 <;> rcases r5 <;>
    simp [calculatePriorityScores, max_def] <;> norm_num

/-- Catalog facts used by the rank-monotonicity proof: available models have
non-negative input cost, speed at most `0.98`, and non-negative capability
scores. -/
theorem availableModelFacts :
    ∀ m ∈ getAvailableModels, 0 ≤ m.costPer1MInput ∧ m.speed ≤ 98/100 ∧
      0 ≤ m.speed ∧ 0 ≤ m.reasoning ∧ 0 ≤ m.coding ∧ 0 ≤ m.creative ∧
      0 ≤ m.analytics := by
  intro m hm
  have hm2 : m ∈ MODEL_CAPABILITIES := List.mem_of_mem_filter hm
  fin_cases hm2 <;> norm_num [ MODEL_CAPABILITIES]

/-- Every zero-cost available model either has a small context window or is
the fastest model in the catalog (speed `0.98`). -/
theorem zeroCostWinFact :
    ∀ m ∈ getAvailableModels, m.costPer1MInput = 0 →
      m.contextWindow < 32000 ∨ m.speed = 98/100 := by
  intro m hm h0
  have hm2 : m ∈ MODEL_CAPABILITIES := List.mem_of_mem_filter hm
  fin_cases hm2 <;>
    first
    | (revert h0 ; norm_num ; done)
    | (left ; norm_num ; done)
    | (right ; norm_num)

/-- `baseScore` is non-negative for non-negative capabilities and
priorities. -/
theorem baseScore_nonneg (p : PriorityScores) (prefs : RouterPreferences)
    (m : ModelCapability)
    (hm : 0 ≤ m.speed ∧ 0 ≤ m.reasoning ∧ 0 ≤ m.coding ∧ 0 ≤ m.creative ∧
      0 ≤ m.analytics)
    (hp : 0 ≤ p.speed ∧ 0 ≤ p.reasoning ∧ 0 ≤ p.coding ∧ 0 ≤ p.creative ∧
      0 ≤ p.analytics) :
    0 ≤ baseScore p prefs m := by
  obtain ⟨h1, h2, h3, h4, h5⟩ := hm
  obtain ⟨g1, g2, g3, g4, g5⟩ := hp
  unfold baseScore
  split_ifs <;>
    nlinarith [mul_nonneg (mul_nonneg h1 g1) (by norm_num : (0:ℚ) ≤ 20),
      mul_nonneg (mul_nonneg h2 g2) (by norm_num : (0:ℚ) ≤ 25),
      mul_nonneg (mul_nonneg h3 g3) (by norm_num : (0:ℚ) ≤ 20),
      mul_nonneg (mul_nonneg h4 g4) (by norm_num : (0:ℚ) ≤ 15),
      mul_nonneg (mul_nonneg h5 g5) (by norm_num : (0:ℚ) ≤ 15),
      mul_nonneg h1 (by norm_num : (0:ℚ) ≤ 25),
      mul_nonneg h2 (by norm_num : (0:ℚ) ≤ 30)]

set_option maxHeartbeats 2000000 in
/-- The slack inequality: over the reachable priority box, every available
model's base score exceeds `0.7` times any zero-cost available model's base
score by at least `2`. -/
theorem slackLemma (p : PriorityScores) (prefs : RouterPreferences)
    (hb : (3/10 ≤ p.speed ∧ p.speed ≤ 1) ∧ (3/10 ≤ p.reasoning ∧ p.reasoning ≤ 1) ∧
      (1/2 ≤ p.coding ∧ p.coding ≤ 1) ∧ (1/2 ≤ p.creative ∧ p.creative ≤ 1) ∧
      (1/2 ≤ p.analytics ∧ p.analytics ≤ 1)) :
    ∀ Z ∈ getAvailableModels, Z.costPer1MInput = 0 →
      ∀ M ∈ getAvailableModels,
        7/10 * baseScore p prefs Z + 2 ≤ baseScore p prefs M := by
  obtain ⟨⟨s1, s2⟩, ⟨r1, r2⟩, ⟨c1, c2⟩, ⟨cr1, cr2⟩, ⟨an1, an2⟩⟩ := hb
  intro Z hZ h0 M hM
  have hZ2 : Z ∈ MODEL_CAPABILITIES := List.mem_of_mem_filter hZ
  have hM2 : M ∈ MODEL_CAPABILITIES := List.mem_of_mem_filter hM
  unfold baseScore
  fin_cases hZ2 <;>
    first
    | (revert h0 ; norm_num ; done)
    | (fin_cases hM2 <;> split_ifs <;> linarith)

/-- `routerScoresZ` at an in-range index is the integral score of the
corresponding available model. -/
theorem routerScoresZ_getD (p : PriorityScores) (prefs : RouterPreferences)
    (a : QueryAnalysis) (j : ℕ) (hj : j < getAvailableModels.length) :
    (routerScoresZ p prefs a).getD j 0 =
      intScore p prefs a (getAvailableModels.getD j dummyCap) := by
  unfold routerScoresZ
  have hl : j < (getAvailableModels.map fun m => intScore p prefs a m).length := by
    simpa using hj
  rw [List.getD_eq_getElem _ _ hl, List.getElem_map, List.getD_eq_getElem _ _ hj]

/-- C6 (amended): for every query analysis and preference set without
`prioritizeCost` and whose `maxCostPer1M`, when present, is non-negative,
switching `prioritizeCost` on never increases the stable-sort position of
any zero-cost available model in the score-sorted recommendation list. -/
theorem claim_C6_costPreferenceRank (a : QueryAnalysis) (prefs : RouterPreferences)
    (hpc : prefs.prioritizeCost = false)
    (hmc : ∀ v, prefs.maxCostPer1M = some v → 0 ≤ v)
    (i : ℕ) (hi : i < getAvailableModels.length)
    (hz : (getAvailableModels.getD i dummyCap).costPer1MInput = 0) :
    stableRankAt (routerScoresZ (calculatePriorityScores a) (withCostOn prefs) a) i ≤
      stableRankAt (routerScoresZ (calculatePriorityScores a) prefs a) i := by
  have hb := priorityScores_bounds a
  unfold stableRankAt
  have hlen1 : (routerScoresZ (calculatePriorityScores a) (withCostOn prefs) a).length =
      getAvailableModels.length := by simp [routerScoresZ]
  have hlen2 : (routerScoresZ (calculatePriorityScores a) prefs a).length =
      getAvailableModels.length := by simp [routerScoresZ]
  rw [hlen1, hlen2]
  apply List.countP_mono_left
  intro j hj
  have hjlt : j < getAvailableModels.length := List.mem_range.mp hj
  rw [routerScoresZ_getD _ _ _ j hjlt, routerScoresZ_getD _ _ _ i hi,
    routerScoresZ_getD _ _ _ j hjlt, routerScoresZ_getD _ _ _ i hi]
  have hZmem : getAvailableModels.getD i dummyCap ∈ getAvailableModels := by
    rw [List.getD_eq_getElem _ _ hi]
    exact List.getElem_mem hi
  have hMmem : getAvailableModels.getD j dummyCap ∈ getAvailableModels := by
    rw [List.getD_eq_getElem _ _ hjlt]
    exact List.getElem_mem hjlt
  obtain ⟨hMc, hMspd, hMs0, hMr0, hMc0, hMcr0, hMa0⟩ := availableModelFacts _ hMmem
  obtain ⟨hZc, hZspd, hZs0, hZr0, hZc0, hZcr0, hZa0⟩ := availableModelFacts _ hZmem
  have hwin := zeroCostWinFact _ hZmem hz
  have hbZ : 0 ≤ baseScore (calculatePriorityScores a) prefs
      (getAvailableModels.getD i dummyCap) :=
    baseScore_nonneg _ _ _ ⟨hZs0, hZr0, hZc0, hZcr0, hZa0⟩
      ⟨by linarith [hb.1.1], by linarith [hb.2.1.1], by linarith [hb.2.2.1.1],
       by linarith [hb.2.2.2.1.1], by linarith [hb.2.2.2.2.1]⟩
  have hsl := slackLemma (calculatePriorityScores a) prefs hb _ hZmem hz _ hMmem
  obtain ⟨himp1, himp2⟩ := pairPreserved (calculatePriorityScores a) prefs a
    (getAvailableModels.getD i dummyCap) (getAvailableModels.getD j dummyCap)
    hpc hmc hz hMc hMspd hwin hbZ hsl
  intro hbeats
  simp only [beats, Bool.or_eq_true, Bool.and_eq_true, decide_eq_true_eq,
    beq_iff_eq] at hbeats ⊢
  rcases hbeats with hgt | ⟨heq, hji⟩
  · exact Or.inl (himp2 hgt)
  · have hle := himp1 (le_of_eq heq.symm)
    rcases lt_or_eq_of_le hle with h | h
    · exact Or.inl h
    · exact Or.inr ⟨h.symm, hji⟩

set_option maxHeartbeats 2000000 in
/-- C6 counterexample: with `prioritizeQuality` and a negative cost cap
`maxCostPer1M = -1` (which penalizes every model, so the "free model" cost
bonus is also multiplied by `0.3` and rounding can flip ties), asking
"what is a document" ranks the zero-cost model `llama3` (catalog index 7)
at position 7 without `prioritizeCost` but at position 8 with it: enabling
the cost preference DEMOTES a zero-cost model. -/
theorem claim_C6_counterexample :
    (getAvailableModels.getD 7 dummyCap).costPer1MInput = 0 ∧
    stableRankAt (routerScoresZ (calculatePriorityScores (analyzeQuery
      "what is a document")) (⟨false, false, true, some (-1), none⟩ : RouterPreferences)
      (analyzeQuery "what is a document")) 7 = 7 ∧
    stableRankAt (routerScoresZ (calculatePriorityScores (analyzeQuery
      "what is a document"))
      (withCostOn (⟨false, false, true, some (-1), none⟩ : RouterPreferences))
      (analyzeQuery "what is a document")) 7 = 8 := by
  have hp : calculatePriorityScores (analyzeQuery "what is a document") =
      ⟨9/10, 3/10, 1/2, 1/2, 1/2⟩ := by
    have hc : (analyzeQuery "what is a document").complexity = .simple := by decide
    have hd : (analyzeQuery "what is a document").domain = .general := by decide
    have hr : (analyzeQuery "what is a document").requirements =
        ⟨true, false, false, false, false⟩ := by decide
    simp [calculatePriorityScores, hc, hd, hr]
  have hL : (analyzeQuery "what is a document").requirements.needsLongContext = true := by
    decide
  have hA : routerScoresZ ⟨9/10, 3/10, 1/2, 1/2, 1/2⟩
      (⟨false, false, true, some (-1), none⟩ : RouterPreferences)
      (analyzeQuery "what is a document") = [21, 22, 13, 21, 22, 21, 21, 12, 12] := by
    norm_num [routerScoresZ, getAvailableModels, MODEL_CAPABILITIES, List.filter,
      intScore, scoreModel, numTruthy, hL, jsRound]
  have hB : routerScoresZ ⟨9/10, 3/10, 1/2, 1/2, 1/2⟩
      (withCostOn (⟨false, false, true, some (-1), none⟩ : RouterPreferences))
      (analyzeQuery "what is a document") = [21, 25, 18, 27, 28, 26, 27, 16, 17] := by
    norm_num [routerScoresZ, getAvailableModels, MODEL_CAPABILITIES, List.filter,
      intScore, scoreModel, numTruthy, hL, jsRound, withCostOn]
  refine ⟨by decide, ?_, ?_⟩
  · rw [hp, hA] ; decide
  · rw [hp, hB] ; decide

/-- Closed instance of the C6 theorem: at the query "hello" with no
preferences set, index 7 (the zero-cost `llama3`) does not move down when
`prioritizeCost` is switched on. -/
theorem claim_C6_costPreferenceRank_witness :
    stableRankAt (routerScoresZ (calculatePriorityScores (analyzeQuery "hello"))
        (withCostOn noPrefs) (analyzeQuery "hello")) 7 ≤
      stableRankAt (routerScoresZ (calculatePriorityScores (analyzeQuery "hello"))
        noPrefs (analyzeQuery "hello")) 7 :=
  claim_C6_costPreferenceRank (analyzeQuery "hello") noPrefs rfl
    (fun v h => by simp [noPrefs] at h) 7 (by decide) (by decide)

end ChatApp
